import Mathlib

/-!
Verification development for the AuroraAI resilience layer: a shallow
embedding of the orchestration module (retry-with-backoff, model waterfall,
result cache, synthetic edit pipeline) together with theorems about its
ordering, caching, classification and error-handling behaviour.

The live orchestration module is embedded in namespace `Aurora`; the older
accreted version of the service file is embedded in namespace `GeminiTS`
where its behaviour differs and a claim depends on that difference.
Remote calls are modelled by oracle functions from the request value and
the attempt number to an outcome, so that every embedded operation is a
pure function of its oracles.
-/

deriving instance DecidableEq for Except

namespace Aurora

/-- JavaScript `hay.includes(need)`: exact substring test. -/
def includes (hay need : String) : Bool :=
  hay.data.tails.any (fun t => need.data.isPrefixOf t)

/-- JavaScript `toLowerCase()`, character by character (the strings the
program matches on are ASCII). -/
def lower (s : String) : String := ⟨s.data.map Char.toLower⟩

/-- An opaque error value, seen only through its textual representation:
`str` models `error.toString()` and `msg` models `error.message ?? ""`. -/
structure GemError where
  str : String
  msg : String
deriving DecidableEq

/-- Quota test of the retrier (`withRetry` in the orchestration module):
`errStr.includes('429') || errMsg.includes('resource exhausted') ||
errMsg.includes('quota') || errMsg.includes('too many requests')`
after lowercasing both strings. -/
def isQuotaErr (e : GemError) : Bool :=
  includes (lower e.str) "429" || includes (lower e.msg) "resource exhausted" ||
    includes (lower e.msg) "quota" || includes (lower e.msg) "too many requests"

/-- Server-busy test of the retrier: `errStr.includes('503') ||
errMsg.includes('unavailable') || errMsg.includes('overloaded')`. -/
def isServerIssueErr (e : GemError) : Bool :=
  includes (lower e.str) "503" || includes (lower e.msg) "unavailable" ||
    includes (lower e.msg) "overloaded"

/-- The retrier of the orchestration module.  The wrapped operation is
modelled as a map from the attempt number to its outcome.  On failure, if
the error tests as quota or server-busy and retries remain, it sleeps the
current delay, multiplies the delay by 1.5 (hard-coded in the source) and
recurses; otherwise the failure is propagated unchanged.  The source
condition `(isQuota || isServerIssue) && retries > 0` is rendered as the
nested match on `retries` so that the recursion is structural; the two
forms take identical branches.  The call sites use the defaults
`retries = 5`, `delay = 4000`.  Returns the final outcome together with
the list of delays slept, in order. -/
def withRetry {α : Type} (op : Nat → Except GemError α) :
    Nat → Nat → ℚ → Except GemError α × List ℚ
  | attempt, retries, delay =>
    match op attempt with
    | .ok a => (.ok a, [])
    | .error e =>
      if isQuotaErr e || isServerIssueErr e then
        match retries with
        | 0 => (.error e, [])
        | r + 1 =>
          let rest := withRetry op (attempt + 1) r (delay * (3/2))
          (rest.1, delay :: rest.2)
      else (.error e, [])

/-- Concrete operation for the C2 witness: two quota failures, then
success. -/
def c2op : Nat → Except GemError Nat :=
  fun k => if k < 2 then .error ⟨"Error: 429 rate limit", "rate limit"⟩ else .ok 42

/-- The error value used by `c2op`. -/
def c2err : GemError := ⟨"Error: 429 rate limit", "rate limit"⟩

/-- The `AspectRatio` enum of `types.ts`. -/
inductive AspectRatio where
  | square
  | portrait23
  | landscape32
  | portrait34
  | landscape43
  | portrait916
  | landscape169
  | cinematic219
deriving DecidableEq

/-- The string value of each `AspectRatio` enum member. -/
def AspectRatio.str : AspectRatio → String
  | .square => "1:1"
  | .portrait23 => "2:3"
  | .landscape32 => "3:2"
  | .portrait34 => "3:4"
  | .landscape43 => "4:3"
  | .portrait916 => "9:16"
  | .landscape169 => "16:9"
  | .cinematic219 => "21:9"

/-- The `ImageResolution` enum of `types.ts`. -/
inductive ImageResolution where
  | res2K
  | res4K
  | res8K
deriving DecidableEq

/-- The string value of each `ImageResolution` enum member. -/
def ImageResolution.str : ImageResolution → String
  | .res2K => "2K"
  | .res4K => "4K"
  | .res8K => "8K"

/-- One part of a model response: optional inline image data and optional
text. -/
structure RespPart where
  inlineData : Option String
  text : Option String
deriving DecidableEq

/-- A `GenerateContentResponse` as the module reads it: the parts of the
first candidate content (an empty list models a missing parts array) and
the SDK `.text` accessor (`none` models `undefined`). -/
structure Response where
  parts : List RespPart
  text : Option String
deriving DecidableEq

/-- One part of a request: optional inline image `(data, mimeType)` and
optional text. -/
structure ReqPart where
  inlineData : Option (String × String)
  text : Option String
deriving DecidableEq

/-- The `imageConfig` object of a generation request. -/
structure ImageConfigV where
  aspectRatio : String
  imageSize : Option String
deriving DecidableEq

/-- A request to `ai.models.generateContent`: model id, content parts and
optional config (`none` models the empty config object). -/
structure ContentRequest where
  model : String
  parts : List ReqPart
  config : Option ImageConfigV
deriving DecidableEq

/-- A request to `ai.models.generateImages` (the Imagen backend). -/
structure ImagenRequest where
  prompt : String
  aspectRatio : String
deriving DecidableEq

/-- Image extraction loop of `tryModel` / `generateWithGemini2`: every part
with inline data becomes a png data URL, in order. -/
def extractImages (r : Response) : List String :=
  r.parts.filterMap (fun p => p.inlineData.map (fun d => "data:image/png;base64," ++ d))

/-- Image scan of the edit loop: the first part with inline data. -/
def firstInlineImage (r : Response) : Option String :=
  r.parts.findSome? (fun p => p.inlineData)

/-- Request construction inside `tryModel` of `generateImage`: the config
always carries the aspect ratio; only model names containing `pro` get an
`imageSize`, with the unsupported value 8K remapped to 4K.  The prompt is
passed through unchanged. -/
def buildGenRequest (model prompt : String) (ar : AspectRatio) (res : ImageResolution) :
    ContentRequest :=
  { model := model
    parts := [⟨none, some prompt⟩]
    config := some
      { aspectRatio := ar.str
        imageSize :=
          if includes model "pro" then
            some (if res = ImageResolution.res8K then "4K" else res.str)
          else none } }

/-- The error thrown by `tryModel` on a response with no image part. -/
def noImageErr : GemError := ⟨"Error: No image in response", "No image in response"⟩

/-- The `tryModel` helper of `generateImage`: one candidate attempt,
wrapped in the retrier with the default policy; a success with zero
extracted images is promoted to the `noImageErr` failure. -/
def tryModel (gen : ContentRequest → Nat → Except GemError Response)
    (model prompt : String) (ar : AspectRatio) (res : ImageResolution) :
    Except GemError (List String) :=
  match (withRetry (gen (buildGenRequest model prompt ar res)) 0 5 4000).1 with
  | .error e => .error e
  | .ok resp =>
    let images := extractImages resp
    if images.length = 0 then .error noImageErr else .ok images

/-- The aspect-ratio switch of `generateWithImagen` in the orchestration
module.  `21:9` has no case there and falls to the `default` branch,
which yields `1:1`. -/
def imagenAspect : AspectRatio → String
  | .square => "1:1"
  | .portrait23 => "3:4"
  | .landscape32 => "4:3"
  | .portrait34 => "3:4"
  | .landscape43 => "4:3"
  | .portrait916 => "9:16"
  | .landscape169 => "16:9"
  | .cinematic219 => "1:1"

/-- The `generateWithImagen` fallback helper: one Imagen call wrapped in
the retrier; the oracle yields the `imageBytes` of the generated images,
which are turned into jpeg data URLs (an empty list stays empty). -/
def generateWithImagen (imagen : ImagenRequest → Nat → Except GemError (List String))
    (prompt : String) (ar : AspectRatio) : Except GemError (List String) :=
  match (withRetry (imagen ⟨prompt, imagenAspect ar⟩) 0 5 4000).1 with
  | .error e => .error e
  | .ok imageBytes => .ok (imageBytes.map (fun b => "data:image/jpeg;base64," ++ b))

/-- The request `generateWithGemini2` sends: fixed experimental model, the
prompt as a text part, the aspect ratio passed through. -/
def gen2Request (prompt : String) (ar : AspectRatio) : ContentRequest :=
  { model := "gemini-2.0-flash-exp"
    parts := [⟨none, some prompt⟩]
    config := some ⟨ar.str, none⟩ }

/-- The `generateWithGemini2` fallback helper: one call wrapped in the
retrier; extracted images may be empty. -/
def generateWithGemini2 (gen : ContentRequest → Nat → Except GemError Response)
    (prompt : String) (ar : AspectRatio) : Except GemError (List String) :=
  match (withRetry (gen (gen2Request prompt ar)) 0 5 4000).1 with
  | .error e => .error e
  | .ok resp => .ok (extractImages resp)

/-- The cache key of `generateImage`:
`prompt-aspectRatio-resolution-useProModel` via template literal. -/
def cacheKey (prompt : String) (ar : AspectRatio) (res : ImageResolution)
    (useProModel : Bool) : String :=
  prompt ++ "-" ++ ar.str ++ "-" ++ res.str ++ "-" ++
    (if useProModel then "true" else "false")

/-- The response cache: an association list read through first-match
lookup, so prepending an entry models `Map.set`. -/
def Cache : Type := List (String × List String)

/-- The value returned by `generateImage`. -/
structure GenResult where
  images : List String
  usedFallback : Bool
  modelUsed : String
deriving DecidableEq

/-- The observable outcome of one `generateImage` call: its result, the
cache state afterwards, and the ordered list of candidates invoked. -/
structure GenOutcome where
  result : Except GemError GenResult
  cache : List (String × List String)
  attempted : List String
deriving DecidableEq

/-- The terminal error of the generate waterfall — a fixed message. -/
def exhaustedErr : GemError :=
  ⟨"Error: All AI models are currently busy or out of quota. Please try again in 1 minute.",
   "All AI models are currently busy or out of quota. Please try again in 1 minute."⟩

/-- One fallback rung of the generate waterfall (the repeated try/catch
block shape): on success return the images tagged as a fallback result,
on failure fall through to `next`, recording the candidate as attempted
either way. -/
def generateStep (gen : ContentRequest → Nat → Except GemError Response)
    (prompt : String) (ar : AspectRatio) (res : ImageResolution) (model : String)
    (next : Except GemError GenResult × List String) :
    Except GemError GenResult × List String :=
  match tryModel gen model prompt ar res with
  | .ok imgs => (.ok ⟨imgs, true, model⟩, [model])
  | .error _ => (next.1, model :: next.2)

/-- The Imagen rung of the generate waterfall: an empty success falls
through to `next` just like a failure. -/
def imagenRung (imagen : ImagenRequest → Nat → Except GemError (List String))
    (prompt : String) (ar : AspectRatio)
    (next : Except GemError GenResult × List String) :
    Except GemError GenResult × List String :=
  match generateWithImagen imagen prompt ar with
  | .ok imgs =>
    if 0 < imgs.length then (.ok ⟨imgs, true, "imagen-3.0"⟩, ["imagen-3.0"])
    else (next.1, "imagen-3.0" :: next.2)
  | .error _ => (next.1, "imagen-3.0" :: next.2)

/-- Rungs 3 to 6 of the generate waterfall, in source order: Imagen 3,
then the two experimental models, then the legacy model; exhaustion of the
last rung throws the fixed `exhaustedErr`. -/
def generateFallbacks (gen : ContentRequest → Nat → Except GemError Response)
    (imagen : ImagenRequest → Nat → Except GemError (List String))
    (prompt : String) (ar : AspectRatio) (res : ImageResolution) :
    Except GemError GenResult × List String :=
  imagenRung imagen prompt ar
    (generateStep gen prompt ar res "gemini-2.0-flash-exp"
      (generateStep gen prompt ar res "gemini-2.0-flash-thinking-exp"
        (generateStep gen prompt ar res "gemini-1.5-flash"
          (.error exhaustedErr, []))))

/-- The preferred (primary) model of the generate waterfall, chosen by
tier. -/
def preferredModel (useProModel : Bool) : String :=
  if useProModel then "gemini-3-pro-image-preview" else "gemini-2.5-flash-image"

/-- The `generateImage` entry point of the orchestration module: cache
check, preferred model (cached on success and flagged as non-fallback),
then — for the pro tier — the standard model, then the shared fallback
rungs. -/
def generateImage (gen : ContentRequest → Nat → Except GemError Response)
    (imagen : ImagenRequest → Nat → Except GemError (List String))
    (prompt : String) (ar : AspectRatio) (res : ImageResolution)
    (useProModel : Bool) (cache : List (String × List String)) : GenOutcome :=
  match cache.lookup (cacheKey prompt ar res useProModel) with
  | some imgs => ⟨.ok ⟨imgs, false, "Cache"⟩, cache, []⟩
  | none =>
    match tryModel gen (preferredModel useProModel) prompt ar res with
    | .ok imgs =>
      ⟨.ok ⟨imgs, false, preferredModel useProModel⟩,
        (cacheKey prompt ar res useProModel, imgs) :: cache, [preferredModel useProModel]⟩
    | .error _ =>
      if useProModel then
        match tryModel gen "gemini-2.5-flash-image" prompt ar res with
        | .ok imgs =>
          ⟨.ok ⟨imgs, true, "gemini-2.5-flash-image"⟩, cache,
            [preferredModel useProModel, "gemini-2.5-flash-image"]⟩
        | .error _ =>
          ⟨(generateFallbacks gen imagen prompt ar res).1, cache,
            preferredModel useProModel :: "gemini-2.5-flash-image" ::
              (generateFallbacks gen imagen prompt ar res).2⟩
      else
        ⟨(generateFallbacks gen imagen prompt ar res).1, cache,
          preferredModel useProModel :: (generateFallbacks gen imagen prompt ar res).2⟩

/-- The six candidate ids of the generate waterfall in priority order
(five when the standard tier is selected, since the standard model is then
the primary). -/
def genCandidates (useProModel : Bool) : List String :=
  (if useProModel then ["gemini-3-pro-image-preview", "gemini-2.5-flash-image"]
   else ["gemini-2.5-flash-image"]) ++
  ["imagen-3.0", "gemini-2.0-flash-exp", "gemini-2.0-flash-thinking-exp", "gemini-1.5-flash"]

/-- The outcome one candidate of the generate waterfall produces: the
Imagen rung runs `generateWithImagen`, every other rung runs `tryModel`
on its model id. -/
def candidateOutcome (gen : ContentRequest → Nat → Except GemError Response)
    (imagen : ImagenRequest → Nat → Except GemError (List String))
    (prompt : String) (ar : AspectRatio) (res : ImageResolution) (c : String) :
    Except GemError (List String) :=
  if c = "imagen-3.0" then generateWithImagen imagen prompt ar
  else tryModel gen c prompt ar res

/-- A candidate outcome the waterfall walks past: a failure, or a success
with zero artifacts. -/
def failsOrEmpty (o : Except GemError (List String)) : Bool :=
  match o with
  | .error _ => true
  | .ok l => l.isEmpty

/-- The base64 payload of an uploaded image: `img.split(',')[1] || img`
(an empty segment after the comma is falsy and falls back to the whole
string). -/
def cleanBase64 (img : String) : String :=
  match (img.splitOn ",").get? 1 with
  | some s => if s = "" then img else s
  | none => img

/-- Mime detection from the data-URL encoding of an uploaded image:
jpeg unless the string starts with a png or webp data-URL. -/
def detectMime (img : String) : String :=
  if img.startsWith "data:image/png" then "image/png"
  else if img.startsWith "data:image/webp" then "image/webp"
  else "image/jpeg"

/-- The inline-data parts built from the uploaded images, in order. -/
def imageReqParts (imgs : List String) : List ReqPart :=
  imgs.map (fun img => ⟨some (cleanBase64 img, detectMime img), none⟩)

/-- The description-stage prompt of the synthetic edit pipeline. -/
def descriptionPrompt (count : Nat) (userPrompt : String) : String :=
  "I have attached " ++ toString count ++ " image(s). I want to process them with this instruction: \"" ++ userPrompt ++ "\".\n        Describe exactly what the resulting merged/edited image should look like in great detail so I can generate it with an AI.\n        Include details about composition, lighting, style, and how the images are combined. Focus on the visual result."

/-- A description request of the synthetic edit pipeline: all image parts
followed by the description prompt, no config. -/
def buildDescRequest (model : String) (imgs : List String) (userPrompt : String) :
    ContentRequest :=
  { model := model
    parts := imageReqParts imgs ++ [⟨none, some (descriptionPrompt imgs.length userPrompt)⟩]
    config := none }

/-- One description attempt: the vision call wrapped in the retrier, its
text read through `descResponse.text || ""`. -/
def descAttempt (gen : ContentRequest → Nat → Except GemError Response)
    (imgs : List String) (userPrompt : String) (model : String) :
    Except GemError String :=
  match (withRetry (gen (buildDescRequest model imgs userPrompt)) 0 5 4000).1 with
  | .error e => .error e
  | .ok resp => .ok (resp.text.getD "")

/-- Stage 1 of the synthetic edit pipeline: describe with 2.5 flash; on a
thrown failure fall back to 2.0 flash exp, then to 1.5 flash; all three
failing yields nothing.  Returns the description and the vision
candidates attempted, in order. -/
def describeStage (gen : ContentRequest → Nat → Except GemError Response)
    (imgs : List String) (userPrompt : String) : Option String × List String :=
  match descAttempt gen imgs userPrompt "gemini-2.5-flash" with
  | .ok t => (some t, ["gemini-2.5-flash"])
  | .error _ =>
    match descAttempt gen imgs userPrompt "gemini-2.0-flash-exp" with
    | .ok t => (some t, ["gemini-2.5-flash", "gemini-2.0-flash-exp"])
    | .error _ =>
      match descAttempt gen imgs userPrompt "gemini-1.5-flash" with
      | .ok t => (some t, ["gemini-2.5-flash", "gemini-2.0-flash-exp", "gemini-1.5-flash"])
      | .error _ => (none, ["gemini-2.5-flash", "gemini-2.0-flash-exp", "gemini-1.5-flash"])

/-- The `syntheticEditWithImagen` pipeline: describe, give up on an empty
or missing description (the `if (!newPrompt) throw` is caught by the outer
catch and yields null), otherwise synthesize from the description with
Imagen and then with the experimental model, returning the first produced
artifact.  The trace lists the vision candidates attempted followed by
`synth:`-tagged entries for the synthesis rungs invoked. -/
def syntheticEditWithImagen (gen : ContentRequest → Nat → Except GemError Response)
    (imagen : ImagenRequest → Nat → Except GemError (List String))
    (base64Images : List String) (userPrompt : String) (ar : AspectRatio) :
    Option String × List String :=
  match describeStage gen base64Images userPrompt with
  | (none, dt) => (none, dt)
  | (some newPrompt, dt) =>
    if newPrompt = "" then (none, dt)
    else
      match generateWithImagen imagen newPrompt ar with
      | .ok imgs =>
        (match imgs.head? with
         | some i => (some i, dt ++ ["synth:imagen-3.0"])
         | none =>
           match generateWithGemini2 gen newPrompt ar with
           | .ok imgs2 =>
             (match imgs2.head? with
              | some i => (some i, dt ++ ["synth:imagen-3.0", "synth:gemini-2.0-flash-exp"])
              | none => (none, dt ++ ["synth:imagen-3.0", "synth:gemini-2.0-flash-exp"]))
           | .error _ => (none, dt ++ ["synth:imagen-3.0", "synth:gemini-2.0-flash-exp"]))
      | .error _ =>
        match generateWithGemini2 gen newPrompt ar with
        | .ok imgs2 =>
          (match imgs2.head? with
           | some i => (some i, dt ++ ["synth:imagen-3.0", "synth:gemini-2.0-flash-exp"])
           | none => (none, dt ++ ["synth:imagen-3.0", "synth:gemini-2.0-flash-exp"]))
        | .error _ => (none, dt ++ ["synth:imagen-3.0", "synth:gemini-2.0-flash-exp"])

/-- The resolution text of the edit master prompt:
`resolution === RES_2K ? "2048px" : "1024px"`. -/
def editResolutionStr : Option ImageResolution → String
  | some .res2K => "2048px"
  | _ => "1024px"

/-- The structured master prompt of `editImage`. -/
def editMasterPrompt (count : Nat) (userPrompt : String) (ar : Option AspectRatio)
    (res : Option ImageResolution) : String :=
  "[MODE: Multimodal Edit]\n[TARGET_ASPECT_RATIO: " ++
    (match ar with | some a => a.str | none => "Original") ++
    "]\n[RESOLUTION: " ++ editResolutionStr res ++
    "]\n[INPUT_IMAGES: " ++ toString count ++
    "]\n\"Perform the following operation on the provided image(s): " ++ userPrompt ++
    ". \nIf multiple images are provided, merge or combine them as requested.\nOutput only the final result image in high quality.\""

/-- An edit request: all image parts plus the master prompt; the config
carries the aspect ratio only when one was supplied. -/
def buildEditRequest (model : String) (base64Images : List String)
    (userPrompt : String) (ar : Option AspectRatio) (res : Option ImageResolution) :
    ContentRequest :=
  { model := model
    parts := imageReqParts base64Images ++
      [⟨none, some (editMasterPrompt base64Images.length userPrompt ar res)⟩]
    config := match ar with | some a => some ⟨a.str, none⟩ | none => none }

/-- The `tryEdit` helper: one edit-candidate call wrapped in the retrier
with the default policy. -/
def tryEdit (gen : ContentRequest → Nat → Except GemError Response)
    (base64Images : List String) (userPrompt : String) (ar : Option AspectRatio)
    (res : Option ImageResolution) (model : String) : Except GemError Response :=
  (withRetry (gen (buildEditRequest model base64Images userPrompt ar res)) 0 5 4000).1

/-- The three edit-capable candidates in priority order. -/
def editModels : List String :=
  ["gemini-2.5-flash-image", "gemini-2.0-flash-exp", "gemini-2.0-flash-thinking-exp"]

/-- The value returned by `editImage` — note: an image and a synthetic
flag only, no degraded flag and no serving-candidate id. -/
structure EditResult where
  image : Option String
  usedSynthetic : Bool
deriving DecidableEq

/-- The edit waterfall loop: for each model in order, attempt the edit;
a response with an inline-data part returns immediately as a
non-synthetic result, otherwise (failure or image-free response) the loop
advances.  Returns the result, if any, and the candidates attempted. -/
def editLoop (gen : ContentRequest → Nat → Except GemError Response)
    (base64Images : List String) (userPrompt : String) (ar : Option AspectRatio)
    (res : Option ImageResolution) : List String → Option EditResult × List String
  | [] => (none, [])
  | m :: ms =>
    match tryEdit gen base64Images userPrompt ar res m with
    | .ok resp =>
      (match firstInlineImage resp with
       | some d => (some ⟨some ("data:image/png;base64," ++ d), false⟩, [m])
       | none =>
         let rest := editLoop gen base64Images userPrompt ar res ms
         (rest.1, m :: rest.2))
    | .error _ =>
      let rest := editLoop gen base64Images userPrompt ar res ms
      (rest.1, m :: rest.2)

/-- The terminal error of `editImage` when the three candidates and the
synthetic pipeline all fail to produce an image. -/
def editExhaustedErr : GemError :=
  ⟨"Error: Editor returned no image from any available AI.",
   "Editor returned no image from any available AI."⟩

/-- The aspect-ratio defaulting of the synthetic call site:
`aspectRatio || AspectRatio.SQUARE`. -/
def arOrSquare : Option AspectRatio → AspectRatio
  | some a => a
  | none => .square

/-- The `editImage` entry point: the edit waterfall over the three
edit-capable candidates, then — only on exhaustion — the synthetic
pipeline (aspect ratio defaulting to square), and the terminal error when
that also produces nothing.  The trace marks an invocation of the
synthetic pipeline with the entry `synthetic`. -/
def editImage (gen : ContentRequest → Nat → Except GemError Response)
    (imagen : ImagenRequest → Nat → Except GemError (List String))
    (base64Images : List String) (userPrompt : String)
    (ar : Option AspectRatio) (res : Option ImageResolution) :
    Except GemError EditResult × List String :=
  match editLoop gen base64Images userPrompt ar res editModels with
  | (some r, t) => (.ok r, t)
  | (none, t) =>
    match (syntheticEditWithImagen gen imagen base64Images userPrompt
        (arOrSquare ar)).1 with
    | some img => (.ok ⟨some img, true⟩, t ++ ["synthetic"])
    | none => (.error editExhaustedErr, t ++ ["synthetic"])

/-- Witness oracle: every content-model call succeeds with one inline
image part. -/
def wgOK : ContentRequest → Nat → Except GemError Response :=
  fun _ _ => .ok ⟨[⟨some "IMG", none⟩], none⟩

/-- Witness oracle: only the standard flash image model succeeds. -/
def w1gen : ContentRequest → Nat → Except GemError Response :=
  fun req _ =>
    if req.model = "gemini-2.5-flash-image" then .ok ⟨[⟨some "IMG", none⟩], none⟩
    else .error ⟨"Error: boom", "boom"⟩

/-- Witness oracle: every content-model call fails with a non-retryable
error. -/
def wFailGen : ContentRequest → Nat → Except GemError Response :=
  fun _ _ => .error ⟨"Error: down", "down"⟩

/-- Witness oracle: every Imagen call fails with a non-retryable error. -/
def wFailImagen : ImagenRequest → Nat → Except GemError (List String) :=
  fun _ _ => .error ⟨"Error: down", "down"⟩

/-- A quota-classified failure, used to compare terminal errors. -/
def quota429 : GemError := ⟨"Error: 429 quota exceeded", "quota exceeded"⟩

/-- An unclassifiable failure, used to compare terminal errors. -/
def mysteryErr : GemError := ⟨"Error: mystery", "mystery"⟩

/-- Oracle for the C9 counterexample: every content call fails with the
quota error. -/
def wQuotaGen : ContentRequest → Nat → Except GemError Response :=
  fun _ _ => .error quota429

/-- Oracle for the C9 counterexample: every Imagen call fails with the
quota error. -/
def wQuotaImagen : ImagenRequest → Nat → Except GemError (List String) :=
  fun _ _ => .error quota429

/-- Oracle for the C9 counterexample: every content call fails with the
unclassifiable error. -/
def wUnkGen : ContentRequest → Nat → Except GemError Response :=
  fun _ _ => .error mysteryErr

/-- Oracle for the C9 counterexample: every Imagen call fails with the
unclassifiable error. -/
def wUnkImagen : ImagenRequest → Nat → Except GemError (List String) :=
  fun _ _ => .error mysteryErr

/-- The artifact one edit candidate yields: the first inline image of a
successful response, nothing on a failure or an image-free response. -/
def editOutcome (gen : ContentRequest → Nat → Except GemError Response)
    (base64Images : List String) (userPrompt : String) (ar : Option AspectRatio)
    (res : Option ImageResolution) (m : String) : Option String :=
  match tryEdit gen base64Images userPrompt ar res m with
  | .ok resp => firstInlineImage resp
  | .error _ => none

/-- Witness oracle: only the first edit candidate answers with an image. -/
def e1gen : ContentRequest → Nat → Except GemError Response :=
  fun req _ =>
    if req.model = "gemini-2.5-flash-image" then .ok ⟨[⟨some "xyz", none⟩], none⟩
    else .error ⟨"Error: no", "no"⟩

/-- Witness oracle: only the second edit candidate answers with an image. -/
def e2gen : ContentRequest → Nat → Except GemError Response :=
  fun req _ =>
    if req.model = "gemini-2.0-flash-exp" then .ok ⟨[⟨some "xyz", none⟩], none⟩
    else .error ⟨"Error: no", "no"⟩

/-- Witness oracle: the first vision model fails and the second answers
with a description; every other content call fails. -/
def desc2OKgen : ContentRequest → Nat → Except GemError Response :=
  fun req _ =>
    if req.model = "gemini-2.0-flash-exp" then .ok ⟨[], some "a red fox"⟩
    else .error ⟨"Error: no", "no"⟩

/-- Witness oracle: every Imagen call produces one image. -/
def imOK : ImagenRequest → Nat → Except GemError (List String) :=
  fun _ _ => .ok ["AAA"]

end Aurora

namespace GeminiTS

/-- Classification result of the centralized error handler in the older
service file (`handleGeminiError`): which normalized error is thrown. -/
inductive ErrClass where
  | permission
  | quota
  | invalidRequest
  | unknown
deriving DecidableEq

open Aurora in
/-- The `handleGeminiError` branch structure of the older service file:
403 / permission denied / permission_denied, then 429 / resource
exhausted / quota, then 400 / invalid_argument, otherwise the raw error
is rethrown unchanged (modelled as `unknown`). -/
def handleGeminiError (e : GemError) : ErrClass :=
  let errString := lower e.str
  let errMessage := lower e.msg
  if includes errString "403" || includes errMessage "permission denied" ||
      includes errMessage "permission_denied" then .permission
  else if includes errString "429" || includes errMessage "resource exhausted" ||
      includes errMessage "quota" then .quota
  else if includes errString "400" || includes errMessage "invalid_argument" then .invalidRequest
  else .unknown

open Aurora in
/-- Prompt augmentation of the older `generateImage`: the detail-emphasis
suffix is appended exactly when the resolution is 8K and the pro model is
in use. -/
def finalPrompt (prompt : String) (res : ImageResolution) (useProModel : Bool) : String :=
  if res = ImageResolution.res8K ∧ useProModel = true then
    prompt ++ " (Highly detailed 8K resolution masterpiece, ultra-sharp)"
  else prompt

open Aurora in
/-- The primary request of the older `generateImage`: model chosen by
tier; `imageSize` set exactly when the pro model is in use, with 8K
remapped to 4K; prompt given by `finalPrompt`. -/
def buildPrimaryRequest (prompt : String) (ar : AspectRatio) (res : ImageResolution)
    (useProModel : Bool) : ContentRequest :=
  { model := if useProModel then "gemini-3-pro-image-preview" else "gemini-2.5-flash-image"
    parts := [⟨none, some (finalPrompt prompt res useProModel)⟩]
    config := some
      { aspectRatio := ar.str
        imageSize :=
          if useProModel then
            some (if res = ImageResolution.res8K then "4K" else res.str)
          else none } }

open Aurora in
/-- The aspect-ratio switch of `generateWithImagen` in the older service
file — unlike the orchestration module, it has a `21:9` case mapping to
`16:9`. -/
def imagenAspectOld : AspectRatio → String
  | .square => "1:1"
  | .portrait23 => "3:4"
  | .landscape32 => "4:3"
  | .portrait34 => "3:4"
  | .landscape43 => "4:3"
  | .portrait916 => "9:16"
  | .landscape169 => "16:9"
  | .cinematic219 => "16:9"

end GeminiTS

namespace SpecSide

/-- The five-way classification the specification postulates. -/
inductive SpecClass where
  | permission
  | quota
  | serverBusy
  | invalidRequest
  | unknown
deriving DecidableEq

open Aurora in
/-- Modelled from the claim wording, for comparison with the source:
a single case-insensitive substring classifier over one textual
representation of the error, with the exact substring lists the claim
gives. -/
def classifySpec (text : String) : SpecClass :=
  let t := lower text
  if includes t "403" || includes t "permission" then .permission
  else if includes t "429" || includes t "quota" || includes t "resource exhausted" ||
      includes t "too many requests" then .quota
  else if includes t "503" || includes t "unavailable" || includes t "overloaded" then .serverBusy
  else if includes t "400" || includes t "invalid_argument" then .invalidRequest
  else .unknown

end SpecSide

/-! ## Theorems -/

namespace Aurora

/-- Step lemma for the geometric delay list of the retrier. -/
lemma cons_map_ratio (m : Nat) (d : ℚ) :
    d :: (List.range m).map (fun k => d * (3/2) * (3/2 : ℚ)^k) =
      (List.range (m+1)).map (fun k => d * (3/2 : ℚ)^k) := by
  rw [List.range_succ_eq_map, List.map_cons, List.map_map]
  congr 1
  · simp
  · refine (List.map_congr_left ?_).symm
    intro a _
    simp only [Function.comp_apply, pow_succ]
    ring

/-- The geometric delay list is strictly increasing when the initial delay
is positive. -/
lemma delays_sorted (n : Nat) (d : ℚ) (hd : 0 < d) :
    ((List.range n).map fun k => d * (3/2 : ℚ)^k).Pairwise (· < ·) := by
  refine List.Pairwise.map _ ?_ (List.pairwise_lt_range n)
  intro i j hij
  have h32 : (1 : ℚ) < 3/2 := by norm_num
  exact mul_lt_mul_of_pos_left (pow_lt_pow_right₀ h32 hij) hd

/-- Full characterization of a retry run against an operation that fails
with a retryable error on every attempt before attempt `N` and succeeds at
attempt `N`. -/
lemma withRetry_run {α : Type} (op : Nat → Except GemError α) (errs : Nat → GemError)
    (N : Nat) (a : α)
    (hf : ∀ k, k < N → op k = .error (errs k) ∧
      (isQuotaErr (errs k) || isServerIssueErr (errs k)) = true)
    (hs : op N = .ok a) :
    ∀ (R j : Nat) (d : ℚ), j ≤ N →
      withRetry op j R d =
        if N - j ≤ R then (.ok a, (List.range (N - j)).map fun k => d * (3/2 : ℚ)^k)
        else (.error (errs (j + R)), (List.range R).map fun k => d * (3/2 : ℚ)^k) := by
  intro R
  induction R with
  | zero =>
    intro j d hj
    rcases Nat.lt_or_ge j N with hlt | hge
    · obtain ⟨he, hc⟩ := hf j hlt
      rw [withRetry, he]
      dsimp only
      rw [if_pos hc]
      rw [if_neg (by omega)]
      simp
    · have hjN : j = N := le_antisymm hj hge
      subst hjN
      rw [withRetry, hs]
      dsimp only
      rw [if_pos (by omega)]
      simp
  | succ R ih =>
    intro j d hj
    rcases Nat.lt_or_ge j N with hlt | hge
    · obtain ⟨he, hc⟩ := hf j hlt
      rw [withRetry, he]
      dsimp only
      rw [if_pos hc]
      rw [ih (j+1) (d * (3/2)) hlt]
      by_cases hNR : N - j ≤ R + 1
      · rw [if_pos (by omega), if_pos hNR]
        have hNj : N - j = (N - (j+1)) + 1 := by omega
        rw [hNj, ← cons_map_ratio]
      · rw [if_neg (by omega), if_neg hNR]
        have hjR : j + 1 + R = j + (R + 1) := by omega
        rw [hjR, ← cons_map_ratio]
    · have hjN : j = N := le_antisymm hj hge
      subst hjN
      rw [withRetry, hs]
      dsimp only
      rw [if_pos (by omega)]
      simp

/-- C2: the retrier retries only failures that test as quota or
server-busy while attempts remain, sleeping the current delay and
multiplying it by the 1.5 multiplier before each retry (call-site default
policy: 5 attempts, 4000 ms initial delay).  For `N` consecutive
quota-or-server-busy failures followed by a success it retries exactly
`min N maxAttempts` times with the strictly increasing delays
`delay * 1.5 ^ k`, succeeding when `N ≤ maxAttempts` and otherwise
propagating the failure of the final attempt unchanged; a non-transient
failure is propagated unchanged with no sleep at all. -/
theorem claim_C2_retry_policy {α : Type} (op : Nat → Except GemError α)
    (errs : Nat → GemError) (N : Nat) (a : α) (R : Nat) (d : ℚ) (hd : 0 < d)
    (hf : ∀ k, k < N → op k = .error (errs k) ∧
      (isQuotaErr (errs k) || isServerIssueErr (errs k)) = true)
    (hs : op N = .ok a) :
    ((withRetry op 0 R d).2 = (List.range (min N R)).map fun k => d * (3/2 : ℚ)^k)
    ∧ ((withRetry op 0 R d).2).Pairwise (· < ·)
    ∧ (N ≤ R → (withRetry op 0 R d).1 = .ok a)
    ∧ (R < N → (withRetry op 0 R d).1 = .error (errs R))
    ∧ (∀ (op2 : Nat → Except GemError α) (e2 : GemError), op2 0 = .error e2 →
        (isQuotaErr e2 || isServerIssueErr e2) = false →
        withRetry op2 0 R d = (.error e2, [])) := by
  have h := withRetry_run op errs N a hf hs R 0 d (Nat.zero_le N)
  simp only [Nat.sub_zero, Nat.zero_add] at h
  have hmain : ((withRetry op 0 R d).2 =
        (List.range (min N R)).map fun k => d * (3/2 : ℚ)^k)
      ∧ (N ≤ R → (withRetry op 0 R d).1 = .ok a)
      ∧ (R < N → (withRetry op 0 R d).1 = .error (errs R)) := by
    by_cases hNR : N ≤ R
    · rw [h, if_pos hNR]
      refine ⟨by rw [min_eq_left hNR], fun _ => rfl, fun hc => absurd hNR (by omega)⟩
    · rw [h, if_neg hNR]
      refine ⟨by rw [min_eq_right (by omega)], fun hc => absurd hc hNR, fun _ => rfl⟩
  refine ⟨hmain.1, ?_, hmain.2.1, hmain.2.2, ?_⟩
  · rw [hmain.1]
    exact delays_sorted _ d hd
  · intro op2 e2 h0 hq
    rw [withRetry, h0]
    dsimp only
    rw [if_neg (by simp [hq])]

/-- A failure the retrier does not retry is propagated unchanged with no
sleep. -/
lemma withRetry_no_retry {α : Type} (op : Nat → Except GemError α) (e : GemError)
    (R : Nat) (d : ℚ) (h0 : op 0 = .error e)
    (hq : (isQuotaErr e || isServerIssueErr e) = false) :
    withRetry op 0 R d = (.error e, []) := by
  rw [withRetry, h0]
  dsimp only
  rw [if_neg (by simp [hq])]

theorem claim_C2_retry_policy_witness :
    ((0 : ℚ) < 4000
      ∧ (∀ k, k < 2 → c2op k = .error c2err ∧
          (isQuotaErr c2err || isServerIssueErr c2err) = true)
      ∧ c2op 2 = .ok 42)
    ∧ (((withRetry c2op 0 5 4000).2 =
          (List.range (min 2 5)).map fun k => (4000 : ℚ) * (3/2 : ℚ)^k)
        ∧ ((withRetry c2op 0 5 4000).2).Pairwise (· < ·)
        ∧ (2 ≤ 5 → (withRetry c2op 0 5 4000).1 = .ok 42)
        ∧ (5 < 2 → (withRetry c2op 0 5 4000).1 = .error ((fun _ => c2err) 5))
        ∧ (∀ (op2 : Nat → Except GemError Nat) (e2 : GemError),
            op2 0 = .error e2 → (isQuotaErr e2 || isServerIssueErr e2) = false →
            withRetry op2 0 5 4000 = (.error e2, []))) :=
  ⟨⟨by norm_num, by decide, by decide⟩,
    claim_C2_retry_policy c2op (fun _ => c2err) 2 42 5 4000 (by norm_num)
      (by decide) (by decide)⟩

/-- C7 counterexample: an error whose text contains `permission` (but not
`permission denied`, `permission_denied` or `403`).  The claimed
classifier maps it to `permission`, yet the centralized handler rethrows
it unclassified and the retrier does not treat it as quota or
server-busy — the code nowhere classifies it as `permission`. -/
theorem claim_C7_counterexample :
    SpecSide.classifySpec "Error: Permission revoked for this key" =
      SpecSide.SpecClass.permission
    ∧ GeminiTS.handleGeminiError
        ⟨"Error: Permission revoked for this key", "Permission revoked for this key"⟩ =
        GeminiTS.ErrClass.unknown
    ∧ isQuotaErr
        ⟨"Error: Permission revoked for this key", "Permission revoked for this key"⟩ = false
    ∧ isServerIssueErr
        ⟨"Error: Permission revoked for this key", "Permission revoked for this key"⟩ = false := by
  decide

/-- C7 (amended): classification is split across two case-insensitive
substring matchers.  The centralized handler of the older service file
maps `403` in the string form, or `permission denied` / `permission_denied`
in the message, to permission; else `429` in the string form or
`resource exhausted` / `quota` in the message to quota; else `400` in the
string form or `invalid_argument` in the message to invalid-request; and
otherwise rethrows the error unchanged — there is no server-busy class
and no bare `permission` match.  The retrier classifies retryable errors
with `isQuotaErr` / `isServerIssueErr` and propagates every other error
unchanged without retrying. -/
theorem claim_C7_classification (e : GemError) :
    (GeminiTS.handleGeminiError e = GeminiTS.ErrClass.permission ↔
      (includes (lower e.str) "403" || includes (lower e.msg) "permission denied" ||
        includes (lower e.msg) "permission_denied") = true)
    ∧ (GeminiTS.handleGeminiError e = GeminiTS.ErrClass.quota ↔
      ((includes (lower e.str) "403" || includes (lower e.msg) "permission denied" ||
          includes (lower e.msg) "permission_denied") = false
        ∧ (includes (lower e.str) "429" || includes (lower e.msg) "resource exhausted" ||
            includes (lower e.msg) "quota") = true))
    ∧ (GeminiTS.handleGeminiError e = GeminiTS.ErrClass.invalidRequest ↔
      ((includes (lower e.str) "403" || includes (lower e.msg) "permission denied" ||
          includes (lower e.msg) "permission_denied") = false
        ∧ (includes (lower e.str) "429" || includes (lower e.msg) "resource exhausted" ||
            includes (lower e.msg) "quota") = false
        ∧ (includes (lower e.str) "400" || includes (lower e.msg) "invalid_argument") = true))
    ∧ (GeminiTS.handleGeminiError e = GeminiTS.ErrClass.unknown ↔
      ((includes (lower e.str) "403" || includes (lower e.msg) "permission denied" ||
          includes (lower e.msg) "permission_denied") = false
        ∧ (includes (lower e.str) "429" || includes (lower e.msg) "resource exhausted" ||
            includes (lower e.msg) "quota") = false
        ∧ (includes (lower e.str) "400" || includes (lower e.msg) "invalid_argument") = false))
    ∧ (∀ {α : Type} (op : Nat → Except GemError α) (R : Nat) (d : ℚ),
        op 0 = .error e → (isQuotaErr e || isServerIssueErr e) = false →
        withRetry op 0 R d = (.error e, [])) := by
  refine ⟨?_, ?_, ?_, ?_, fun op R d h0 hq => withRetry_no_retry op e R d h0 hq⟩ <;>
    · unfold GeminiTS.handleGeminiError
      rcases hP : (includes (lower e.str) "403" || includes (lower e.msg) "permission denied" ||
        includes (lower e.msg) "permission_denied") <;>
        rcases hQ : (includes (lower e.str) "429" || includes (lower e.msg) "resource exhausted" ||
          includes (lower e.msg) "quota") <;>
        rcases hI : (includes (lower e.str) "400" || includes (lower e.msg) "invalid_argument") <;>
        simp [hP, hQ, hI]

/-- Witness for C7 (amended) at a concrete error. -/
theorem claim_C7_classification_witness :
    GeminiTS.handleGeminiError ⟨"Error: 403 blocked", "permission denied"⟩ =
      GeminiTS.ErrClass.permission :=
  (claim_C7_classification ⟨"Error: 403 blocked", "permission denied"⟩).1.mpr (by decide)

/-- C8 counterexample: an 8K pro-tier request in the live waterfall
module.  The backend request remaps 8K to 4K, but the prompt is sent
unchanged — no detail-emphasis suffix is appended. -/
theorem claim_C8_counterexample :
    (buildGenRequest "gemini-3-pro-image-preview" "cat" AspectRatio.square
        ImageResolution.res8K).config = some ⟨"1:1", some "4K"⟩
    ∧ (buildGenRequest "gemini-3-pro-image-preview" "cat" AspectRatio.square
        ImageResolution.res8K).parts = [⟨none, some "cat"⟩]
    ∧ ("cat" : String) ≠
        "cat (Highly detailed 8K resolution masterpiece, ultra-sharp)" := by
  decide

/-- C8 (amended): in the live waterfall module the 8K-to-4K `imageSize`
remap applies exactly to candidates whose model id contains `pro`, other
candidates get no `imageSize`, and the prompt is always sent unchanged;
the prompt augmentation with the detail-emphasis suffix exists only in
the older service file, whose primary request remaps 8K and augments the
prompt exactly when the pro model is in use. -/
theorem claim_C8_resolution_remap (model prompt : String) (ar : AspectRatio)
    (res : ImageResolution) :
    (includes model "pro" = true →
      (buildGenRequest model prompt ar res).config =
        some ⟨ar.str, some (if res = ImageResolution.res8K then "4K" else res.str)⟩)
    ∧ (includes model "pro" = false →
      (buildGenRequest model prompt ar res).config = some ⟨ar.str, none⟩)
    ∧ (buildGenRequest model prompt ar res).parts = [⟨none, some prompt⟩]
    ∧ (GeminiTS.buildPrimaryRequest prompt ar res true).parts =
        [⟨none, some (if res = ImageResolution.res8K then
            prompt ++ " (Highly detailed 8K resolution masterpiece, ultra-sharp)"
          else prompt)⟩]
    ∧ (GeminiTS.buildPrimaryRequest prompt ar res true).config =
        some ⟨ar.str, some (if res = ImageResolution.res8K then "4K" else res.str)⟩
    ∧ (GeminiTS.buildPrimaryRequest prompt ar res false).parts = [⟨none, some prompt⟩]
    ∧ (GeminiTS.buildPrimaryRequest prompt ar res false).config = some ⟨ar.str, none⟩ := by
  refine ⟨fun h => ?_, fun h => ?_, ?_, ?_, ?_, ?_, ?_⟩ <;>
    rcases res <;>
    simp [buildGenRequest, GeminiTS.buildPrimaryRequest, GeminiTS.finalPrompt, *]

/-- Witness for C8 (amended): the pro-tier primary at 8K. -/
theorem claim_C8_resolution_remap_witness :
    includes "gemini-3-pro-image-preview" "pro" = true
    ∧ (buildGenRequest "gemini-3-pro-image-preview" "a cat" AspectRatio.landscape169
        ImageResolution.res8K).config = some ⟨"16:9", some "4K"⟩ :=
  ⟨by decide,
    by
      have h := (claim_C8_resolution_remap "gemini-3-pro-image-preview" "a cat"
        AspectRatio.landscape169 ImageResolution.res8K).1 (by decide)
      simpa using h⟩

/-- C10: the Imagen fallback remaps the requested aspect ratio through the
fixed table (1:1, 2:3 to 3:4, 3:2 to 4:3, 3:4, 4:3, 9:16, 16:9 kept), and
a ratio absent from the switch — in particular 21:9 — falls to the
default 1:1, so the produced aspect ratio can silently differ from the
requested one. -/
theorem claim_C10_imagen_ratio_map :
    imagenAspect AspectRatio.square = "1:1"
    ∧ imagenAspect AspectRatio.portrait23 = "3:4"
    ∧ imagenAspect AspectRatio.landscape32 = "4:3"
    ∧ imagenAspect AspectRatio.portrait34 = "3:4"
    ∧ imagenAspect AspectRatio.landscape43 = "4:3"
    ∧ imagenAspect AspectRatio.portrait916 = "9:16"
    ∧ imagenAspect AspectRatio.landscape169 = "16:9"
    ∧ imagenAspect AspectRatio.cinematic219 = "1:1"
    ∧ AspectRatio.str AspectRatio.cinematic219 = "21:9"
    ∧ imagenAspect AspectRatio.cinematic219 ≠ AspectRatio.str AspectRatio.cinematic219
    ∧ imagenAspect AspectRatio.portrait23 ≠ AspectRatio.str AspectRatio.portrait23 := by
  decide

/-- A successful `tryModel` result is never empty: an image-free response
is promoted to a failure. -/
lemma tryModel_ok_ne_nil {gen : ContentRequest → Nat → Except GemError Response}
    {m p : String} {ar : AspectRatio} {res : ImageResolution} {l : List String}
    (h : tryModel gen m p ar res = .ok l) : l ≠ [] := by
  unfold tryModel at h
  rcases h1 : (withRetry (gen (buildGenRequest m p ar res)) 0 5 4000).1 with e | resp <;>
    rw [h1] at h
  · cases h
  · dsimp only at h
    split at h
    · cases h
    · cases h
      intro hnil
      simp [hnil] at *

/-- A failed outcome always tests as `failsOrEmpty`. -/
lemma failsOrEmpty_error {o : Except GemError (List String)} {e : GemError}
    (h : o = .error e) : failsOrEmpty o = true := by
  subst h; rfl

/-- Specialization of the candidate-outcome table to the Imagen rung. -/
lemma co_imagen (gen : ContentRequest → Nat → Except GemError Response)
    (imagen : ImagenRequest → Nat → Except GemError (List String))
    (p : String) (ar : AspectRatio) (res : ImageResolution) :
    candidateOutcome gen imagen p ar res "imagen-3.0" = generateWithImagen imagen p ar := by
  simp [candidateOutcome]

/-- Specialization of the candidate-outcome table to a `tryModel` rung. -/
lemma co_tryModel (gen : ContentRequest → Nat → Except GemError Response)
    (imagen : ImagenRequest → Nat → Except GemError (List String))
    (p : String) (ar : AspectRatio) (res : ImageResolution) (m : String)
    (h : m ≠ "imagen-3.0") :
    candidateOutcome gen imagen p ar res m = tryModel gen m p ar res := by
  simp [candidateOutcome, h]

/-- Unfolding lemma: a fallback rung whose model succeeds. -/
lemma generateStep_ok {gen : ContentRequest → Nat → Except GemError Response}
    {p : String} {ar : AspectRatio} {res : ImageResolution} {m : String}
    {l : List String} (h : tryModel gen m p ar res = .ok l)
    (next : Except GemError GenResult × List String) :
    generateStep gen p ar res m next = (.ok ⟨l, true, m⟩, [m]) := by
  unfold generateStep
  rw [h]

/-- Unfolding lemma: a fallback rung whose model fails. -/
lemma generateStep_err {gen : ContentRequest → Nat → Except GemError Response}
    {p : String} {ar : AspectRatio} {res : ImageResolution} {m : String}
    {e : GemError} (h : tryModel gen m p ar res = .error e)
    (next : Except GemError GenResult × List String) :
    generateStep gen p ar res m next = (next.1, m :: next.2) := by
  unfold generateStep
  rw [h]

/-- Unfolding lemma: the Imagen rung on a thrown failure. -/
lemma imagenRung_err {imagen : ImagenRequest → Nat → Except GemError (List String)}
    {p : String} {ar : AspectRatio} {e : GemError}
    (h : generateWithImagen imagen p ar = .error e)
    (next : Except GemError GenResult × List String) :
    imagenRung imagen p ar next = (next.1, "imagen-3.0" :: next.2) := by
  unfold imagenRung
  rw [h]

/-- Unfolding lemma: the Imagen rung on a non-empty success. -/
lemma imagenRung_ok_pos {imagen : ImagenRequest → Nat → Except GemError (List String)}
    {p : String} {ar : AspectRatio} {l : List String}
    (h : generateWithImagen imagen p ar = .ok l) (hl : 0 < l.length)
    (next : Except GemError GenResult × List String) :
    imagenRung imagen p ar next = (.ok ⟨l, true, "imagen-3.0"⟩, ["imagen-3.0"]) := by
  unfold imagenRung
  rw [h]
  simp [hl]

/-- Unfolding lemma: the Imagen rung on an empty success, which falls
through like a failure. -/
lemma imagenRung_ok_zero {imagen : ImagenRequest → Nat → Except GemError (List String)}
    {p : String} {ar : AspectRatio} {l : List String}
    (h : generateWithImagen imagen p ar = .ok l) (hl : ¬ 0 < l.length)
    (next : Except GemError GenResult × List String) :
    imagenRung imagen p ar next = (next.1, "imagen-3.0" :: next.2) := by
  unfold imagenRung
  rw [h]
  simp [hl]

/-- Characterization of the four shared fallback rungs: the attempted
candidates are an initial segment of the rung order, every candidate
before the last attempted one failed or was empty, a success comes from
the last attempted candidate with its own non-empty images and the
fallback flag set, and exhaustion yields the fixed terminal error with
every rung attempted. -/
lemma generateFallbacks_spec (gen : ContentRequest → Nat → Except GemError Response)
    (imagen : ImagenRequest → Nat → Except GemError (List String))
    (prompt : String) (ar : AspectRatio) (res : ImageResolution) :
    (generateFallbacks gen imagen prompt ar res).2 <+:
        ["imagen-3.0", "gemini-2.0-flash-exp", "gemini-2.0-flash-thinking-exp",
          "gemini-1.5-flash"]
    ∧ (generateFallbacks gen imagen prompt ar res).2 ≠ []
    ∧ (∀ c ∈ (generateFallbacks gen imagen prompt ar res).2.dropLast,
        failsOrEmpty (candidateOutcome gen imagen prompt ar res c) = true)
    ∧ (∀ r, (generateFallbacks gen imagen prompt ar res).1 = .ok r →
        (generateFallbacks gen imagen prompt ar res).2.getLast? = some r.modelUsed
        ∧ candidateOutcome gen imagen prompt ar res r.modelUsed = .ok r.images
        ∧ r.images ≠ [] ∧ r.usedFallback = true
        ∧ r.modelUsed ∈ ["imagen-3.0", "gemini-2.0-flash-exp",
            "gemini-2.0-flash-thinking-exp", "gemini-1.5-flash"])
    ∧ (∀ e, (generateFallbacks gen imagen prompt ar res).1 = .error e →
        e = exhaustedErr
        ∧ (generateFallbacks gen imagen prompt ar res).2 =
            ["imagen-3.0", "gemini-2.0-flash-exp", "gemini-2.0-flash-thinking-exp",
              "gemini-1.5-flash"]
        ∧ ∀ c ∈ (["imagen-3.0", "gemini-2.0-flash-exp",
            "gemini-2.0-flash-thinking-exp", "gemini-1.5-flash"] : List String),
            failsOrEmpty (candidateOutcome gen imagen prompt ar res c) = true) := by
  have hfe4 : ∀ e, tryModel gen "gemini-2.0-flash-exp" prompt ar res = .error e →
      failsOrEmpty (candidateOutcome gen imagen prompt ar res "gemini-2.0-flash-exp") = true := by
    intro e h
    rw [co_tryModel gen imagen prompt ar res "gemini-2.0-flash-exp" (by decide)]
    exact failsOrEmpty_error h
  have hfe5 : ∀ e, tryModel gen "gemini-2.0-flash-thinking-exp" prompt ar res = .error e →
      failsOrEmpty (candidateOutcome gen imagen prompt ar res
        "gemini-2.0-flash-thinking-exp") = true := by
    intro e h
    rw [co_tryModel gen imagen prompt ar res "gemini-2.0-flash-thinking-exp" (by decide)]
    exact failsOrEmpty_error h
  have hfe6 : ∀ e, tryModel gen "gemini-1.5-flash" prompt ar res = .error e →
      failsOrEmpty (candidateOutcome gen imagen prompt ar res "gemini-1.5-flash") = true := by
    intro e h
    rw [co_tryModel gen imagen prompt ar res "gemini-1.5-flash" (by decide)]
    exact failsOrEmpty_error h
  unfold generateFallbacks
  rcases h3 : generateWithImagen imagen prompt ar with e3 | l3
  · rw [imagenRung_err h3]
    have hi3 : failsOrEmpty (candidateOutcome gen imagen prompt ar res "imagen-3.0") = true := by
      rw [co_imagen, h3]
      rfl
    rcases h4 : tryModel gen "gemini-2.0-flash-exp" prompt ar res with e4 | l4
    · rw [generateStep_err h4]
      rcases h5 : tryModel gen "gemini-2.0-flash-thinking-exp" prompt ar res with e5 | l5
      · rw [generateStep_err h5]
        rcases h6 : tryModel gen "gemini-1.5-flash" prompt ar res with e6 | l6
        · rw [generateStep_err h6]
          dsimp only
          refine ⟨?_, ?_, ?_, ?_, ?_⟩
          · exact ⟨([] : List String), rfl⟩
          · simp
          · intro c hc
            simp only [List.dropLast_cons₂, List.dropLast_single, List.mem_cons,
              List.not_mem_nil, or_false, List.mem_singleton] at hc
            rcases hc with rfl | rfl | rfl
            · exact hi3
            · exact hfe4 _ h4
            · exact hfe5 _ h5
          · intro r hr
            cases hr
          · intro e he
            cases he
            refine ⟨rfl, rfl, ?_⟩
            intro c hc
            simp only [List.mem_cons, List.not_mem_nil, or_false] at hc
            rcases hc with rfl | rfl | rfl | rfl
            · exact hi3
            · exact hfe4 _ h4
            · exact hfe5 _ h5
            · exact hfe6 _ h6
        · rw [generateStep_ok h6]
          dsimp only
          refine ⟨?_, ?_, ?_, ?_, ?_⟩
          · exact ⟨([] : List String), rfl⟩
          · simp
          · intro c hc
            simp only [List.dropLast_cons₂, List.dropLast_single, List.mem_cons,
              List.not_mem_nil, or_false, List.mem_singleton] at hc
            rcases hc with rfl | rfl | rfl
            · exact hi3
            · exact hfe4 _ h4
            · exact hfe5 _ h5
          · intro r hr
            cases hr
            dsimp only
            refine ⟨by simp, ?_, tryModel_ok_ne_nil h6, rfl, by simp⟩
            rw [co_tryModel gen imagen prompt ar res "gemini-1.5-flash" (by decide)]
            exact h6
          · intro e he
            cases he
      · rw [generateStep_ok h5]
        dsimp only
        refine ⟨?_, ?_, ?_, ?_, ?_⟩
        · exact ⟨["gemini-1.5-flash"], rfl⟩
        · simp
        · intro c hc
          simp only [List.dropLast_cons₂, List.dropLast_single, List.mem_cons,
            List.not_mem_nil, or_false, List.mem_singleton] at hc
          rcases hc with rfl | rfl
          · exact hi3
          · exact hfe4 _ h4
        · intro r hr
          cases hr
          dsimp only
          refine ⟨by simp, ?_, tryModel_ok_ne_nil h5, rfl, by simp⟩
          rw [co_tryModel gen imagen prompt ar res "gemini-2.0-flash-thinking-exp" (by decide)]
          exact h5
        · intro e he
          cases he
    · rw [generateStep_ok h4]
      dsimp only
      refine ⟨?_, ?_, ?_, ?_, ?_⟩
      · exact ⟨["gemini-2.0-flash-thinking-exp", "gemini-1.5-flash"], rfl⟩
      · simp
      · intro c hc
        simp only [List.dropLast_cons₂, List.dropLast_single, List.mem_cons,
          List.not_mem_nil, or_false, List.mem_singleton] at hc
        subst hc
        exact hi3
      · intro r hr
        cases hr
        dsimp only
        refine ⟨by simp, ?_, tryModel_ok_ne_nil h4, rfl, by simp⟩
        rw [co_tryModel gen imagen prompt ar res "gemini-2.0-flash-exp" (by decide)]
        exact h4
      · intro e he
        cases he
  · by_cases hl3 : 0 < l3.length
    · rw [imagenRung_ok_pos h3 hl3]
      dsimp only
      refine ⟨?_, ?_, ?_, ?_, ?_⟩
      · exact ⟨["gemini-2.0-flash-exp", "gemini-2.0-flash-thinking-exp", "gemini-1.5-flash"], rfl⟩
      · simp
      · simp
      · intro r hr
        cases hr
        dsimp only
        refine ⟨by simp, ?_, ?_, rfl, by simp⟩
        · rw [co_imagen]
          exact h3
        · intro hnil
          rw [hnil] at hl3
          simp at hl3
      · intro e he
        cases he
    · rw [imagenRung_ok_zero h3 hl3]
      have hi3 : failsOrEmpty (candidateOutcome gen imagen prompt ar res "imagen-3.0") = true := by
        rw [co_imagen, h3]
        have hl3e : l3 = [] := by
          rcases l3 with _ | ⟨x, xs⟩
          · rfl
          · simp at hl3
        simp [failsOrEmpty, hl3e]
      rcases h4 : tryModel gen "gemini-2.0-flash-exp" prompt ar res with e4 | l4
      · rw [generateStep_err h4]
        rcases h5 : tryModel gen "gemini-2.0-flash-thinking-exp" prompt ar res with e5 | l5
        · rw [generateStep_err h5]
          rcases h6 : tryModel gen "gemini-1.5-flash" prompt ar res with e6 | l6
          · rw [generateStep_err h6]
            dsimp only
            refine ⟨?_, ?_, ?_, ?_, ?_⟩
            · exact ⟨([] : List String), rfl⟩
            · simp
            · intro c hc
              simp only [List.dropLast_cons₂, List.dropLast_single, List.mem_cons,
                List.not_mem_nil, or_false, List.mem_singleton] at hc
              rcases hc with rfl | rfl | rfl
              · exact hi3
              · exact hfe4 _ h4
              · exact hfe5 _ h5
            · intro r hr
              cases hr
            · intro e he
              cases he
              refine ⟨rfl, rfl, ?_⟩
              intro c hc
              simp only [List.mem_cons, List.not_mem_nil, or_false] at hc
              rcases hc with rfl | rfl | rfl | rfl
              · exact hi3
              · exact hfe4 _ h4
              · exact hfe5 _ h5
              · exact hfe6 _ h6
          · rw [generateStep_ok h6]
            dsimp only
            refine ⟨?_, ?_, ?_, ?_, ?_⟩
            · exact ⟨([] : List String), rfl⟩
            · simp
            · intro c hc
              simp only [List.dropLast_cons₂, List.dropLast_single, List.mem_cons,
                List.not_mem_nil, or_false, List.mem_singleton] at hc
              rcases hc with rfl | rfl | rfl
              · exact hi3
              · exact hfe4 _ h4
              · exact hfe5 _ h5
            · intro r hr
              cases hr
              dsimp only
              refine ⟨by simp, ?_, tryModel_ok_ne_nil h6, rfl, by simp⟩
              rw [co_tryModel gen imagen prompt ar res "gemini-1.5-flash" (by decide)]
              exact h6
            · intro e he
              cases he
        · rw [generateStep_ok h5]
          dsimp only
          refine ⟨?_, ?_, ?_, ?_, ?_⟩
          · exact ⟨["gemini-1.5-flash"], rfl⟩
          · simp
          · intro c hc
            simp only [List.dropLast_cons₂, List.dropLast_single, List.mem_cons,
              List.not_mem_nil, or_false, List.mem_singleton] at hc
            rcases hc with rfl | rfl
            · exact hi3
            · exact hfe4 _ h4
          · intro r hr
            cases hr
            dsimp only
            refine ⟨by simp, ?_, tryModel_ok_ne_nil h5, rfl, by simp⟩
            rw [co_tryModel gen imagen prompt ar res "gemini-2.0-flash-thinking-exp" (by decide)]
            exact h5
          · intro e he
            cases he
      · rw [generateStep_ok h4]
        dsimp only
        refine ⟨?_, ?_, ?_, ?_, ?_⟩
        · exact ⟨["gemini-2.0-flash-thinking-exp", "gemini-1.5-flash"], rfl⟩
        · simp
        · intro c hc
          simp only [List.dropLast_cons₂, List.dropLast_single, List.mem_cons,
            List.not_mem_nil, or_false, List.mem_singleton] at hc
          subst hc
          exact hi3
        · intro r hr
          cases hr
          dsimp only
          refine ⟨by simp, ?_, tryModel_ok_ne_nil h4, rfl, by simp⟩
          rw [co_tryModel gen imagen prompt ar res "gemini-2.0-flash-exp" (by decide)]
          exact h4
        · intro e he
          cases he

/-- Dropping the last element of a cons with a non-empty tail. -/
lemma dropLast_cons_ne {α : Type} (a : α) {l : List α} (h : l ≠ []) :
    (a :: l).dropLast = a :: l.dropLast := by
  rcases l with _ | ⟨b, t⟩
  · exact absurd rfl h
  · rfl

/-- The last element of a cons with a non-empty tail. -/
lemma getLast?_cons_ne {α : Type} (a : α) {l : List α} (h : l ≠ []) :
    (a :: l).getLast? = l.getLast? := by
  rcases l with _ | ⟨b, t⟩
  · exact absurd rfl h
  · exact List.getLast?_cons_cons

/-- Unfolding lemma: a cache hit returns the cached images immediately. -/
lemma generateImage_hit {gen : ContentRequest → Nat → Except GemError Response}
    {imagen : ImagenRequest → Nat → Except GemError (List String)}
    {prompt : String} {ar : AspectRatio} {res : ImageResolution} {pro : Bool}
    {cache : List (String × List String)} {imgs : List String}
    (h : cache.lookup (cacheKey prompt ar res pro) = some imgs) :
    generateImage gen imagen prompt ar res pro cache =
      ⟨.ok ⟨imgs, false, "Cache"⟩, cache, []⟩ := by
  unfold generateImage
  rw [h]

/-- Unfolding lemma: cache miss, primary candidate success. -/
lemma generateImage_rung1_ok {gen : ContentRequest → Nat → Except GemError Response}
    {imagen : ImagenRequest → Nat → Except GemError (List String)}
    {prompt : String} {ar : AspectRatio} {res : ImageResolution} {pro : Bool}
    {cache : List (String × List String)} {imgs : List String}
    (hm : cache.lookup (cacheKey prompt ar res pro) = none)
    (h1 : tryModel gen (preferredModel pro) prompt ar res = .ok imgs) :
    generateImage gen imagen prompt ar res pro cache =
      ⟨.ok ⟨imgs, false, preferredModel pro⟩,
        (cacheKey prompt ar res pro, imgs) :: cache, [preferredModel pro]⟩ := by
  unfold generateImage
  rw [hm, h1]

/-- Unfolding lemma: cache miss, pro tier, primary failure, standard-model
success. -/
lemma generateImage_rung2_ok {gen : ContentRequest → Nat → Except GemError Response}
    {imagen : ImagenRequest → Nat → Except GemError (List String)}
    {prompt : String} {ar : AspectRatio} {res : ImageResolution}
    {cache : List (String × List String)} {e1 : GemError} {imgs : List String}
    (hm : cache.lookup (cacheKey prompt ar res true) = none)
    (h1 : tryModel gen (preferredModel true) prompt ar res = .error e1)
    (h2 : tryModel gen "gemini-2.5-flash-image" prompt ar res = .ok imgs) :
    generateImage gen imagen prompt ar res true cache =
      ⟨.ok ⟨imgs, true, "gemini-2.5-flash-image"⟩, cache,
        [preferredModel true, "gemini-2.5-flash-image"]⟩ := by
  unfold generateImage
  rw [hm, h1]
  dsimp only
  rw [if_pos rfl, h2]

/-- Unfolding lemma: cache miss, pro tier, both leading rungs failed,
control passes to the shared fallbacks. -/
lemma generateImage_rung2_err {gen : ContentRequest → Nat → Except GemError Response}
    {imagen : ImagenRequest → Nat → Except GemError (List String)}
    {prompt : String} {ar : AspectRatio} {res : ImageResolution}
    {cache : List (String × List String)} {e1 e2 : GemError}
    (hm : cache.lookup (cacheKey prompt ar res true) = none)
    (h1 : tryModel gen (preferredModel true) prompt ar res = .error e1)
    (h2 : tryModel gen "gemini-2.5-flash-image" prompt ar res = .error e2) :
    generateImage gen imagen prompt ar res true cache =
      ⟨(generateFallbacks gen imagen prompt ar res).1, cache,
        preferredModel true :: "gemini-2.5-flash-image" ::
          (generateFallbacks gen imagen prompt ar res).2⟩ := by
  unfold generateImage
  rw [hm, h1]
  dsimp only
  rw [if_pos rfl, h2]

/-- Unfolding lemma: cache miss, standard tier, primary failure, control
passes to the shared fallbacks. -/
lemma generateImage_std_err {gen : ContentRequest → Nat → Except GemError Response}
    {imagen : ImagenRequest → Nat → Except GemError (List String)}
    {prompt : String} {ar : AspectRatio} {res : ImageResolution}
    {cache : List (String × List String)} {e1 : GemError}
    (hm : cache.lookup (cacheKey prompt ar res false) = none)
    (h1 : tryModel gen (preferredModel false) prompt ar res = .error e1) :
    generateImage gen imagen prompt ar res false cache =
      ⟨(generateFallbacks gen imagen prompt ar res).1, cache,
        preferredModel false :: (generateFallbacks gen imagen prompt ar res).2⟩ := by
  unfold generateImage
  rw [hm, h1]
  dsimp only
  rw [if_neg (by simp)]

/-- Full characterization of one `generateImage` call: a cache hit is
served immediately; on a miss the attempted candidates are an initial
segment of the priority order, every non-final attempted candidate failed
or produced nothing, a success is served by the final attempted candidate
with the fallback flag clear exactly for the primary (which is also the
only case that writes the cache), and exhaustion yields the fixed
terminal error with every candidate attempted and the cache untouched. -/
lemma generate_spec (gen : ContentRequest → Nat → Except GemError Response)
    (imagen : ImagenRequest → Nat → Except GemError (List String))
    (prompt : String) (ar : AspectRatio) (res : ImageResolution) (pro : Bool)
    (cache : List (String × List String)) :
    (∀ imgs, cache.lookup (cacheKey prompt ar res pro) = some imgs →
      generateImage gen imagen prompt ar res pro cache =
        ⟨.ok ⟨imgs, false, "Cache"⟩, cache, []⟩)
    ∧ (cache.lookup (cacheKey prompt ar res pro) = none →
      (generateImage gen imagen prompt ar res pro cache).attempted <+: genCandidates pro
      ∧ (generateImage gen imagen prompt ar res pro cache).attempted ≠ []
      ∧ (∀ c ∈ (generateImage gen imagen prompt ar res pro cache).attempted.dropLast,
          failsOrEmpty (candidateOutcome gen imagen prompt ar res c) = true)
      ∧ (∀ r, (generateImage gen imagen prompt ar res pro cache).result = .ok r →
          (generateImage gen imagen prompt ar res pro cache).attempted.getLast? =
            some r.modelUsed
          ∧ candidateOutcome gen imagen prompt ar res r.modelUsed = .ok r.images
          ∧ r.images ≠ []
          ∧ (r.usedFallback = false ↔ r.modelUsed = preferredModel pro)
          ∧ (r.usedFallback = false →
              (generateImage gen imagen prompt ar res pro cache).cache =
                (cacheKey prompt ar res pro, r.images) :: cache)
          ∧ (r.usedFallback = true →
              (generateImage gen imagen prompt ar res pro cache).cache = cache))
      ∧ (∀ e, (generateImage gen imagen prompt ar res pro cache).result = .error e →
          e = exhaustedErr
          ∧ (generateImage gen imagen prompt ar res pro cache).attempted = genCandidates pro
          ∧ (∀ c ∈ genCandidates pro,
              failsOrEmpty (candidateOutcome gen imagen prompt ar res c) = true)
          ∧ (generateImage gen imagen prompt ar res pro cache).cache = cache)) := by
  refine ⟨fun imgs h => generateImage_hit h, fun hm => ?_⟩
  cases pro
  case false =>
    have hgc : genCandidates false =
        preferredModel false :: ["imagen-3.0", "gemini-2.0-flash-exp",
          "gemini-2.0-flash-thinking-exp", "gemini-1.5-flash"] := rfl
    rcases h1 : tryModel gen (preferredModel false) prompt ar res with e1 | l1
    · rw [generateImage_std_err hm h1]
      obtain ⟨fpre, fne, fdrop, fok, ferr⟩ := generateFallbacks_spec gen imagen prompt ar res
      refine ⟨?_, by simp, ?_, ?_, ?_⟩
      · obtain ⟨t, ht⟩ := fpre
        refine ⟨t, ?_⟩
        rw [hgc]
        dsimp only
        rw [List.cons_append, ht]
      · intro c hc
        dsimp only at hc
        rw [dropLast_cons_ne _ fne] at hc
        rcases List.mem_cons.mp hc with rfl | hc2
        · rw [co_tryModel gen imagen prompt ar res (preferredModel false) (by decide)]
          exact failsOrEmpty_error h1
        · exact fdrop c hc2
      · intro r hr
        dsimp only at hr
        obtain ⟨hlast, hco, hne, hfb, hmem⟩ := fok r hr
        refine ⟨?_, hco, hne, ?_, ?_, fun _ => rfl⟩
        · dsimp only
          rw [getLast?_cons_ne _ fne]
          exact hlast
        · constructor
          · intro hff
            rw [hfb] at hff
            cases hff
          · intro hpm
            rw [hpm] at hmem
            exact absurd hmem (by decide)
        · intro hff
          rw [hfb] at hff
          cases hff
      · intro e he
        dsimp only at he
        obtain ⟨hee, hfull, hall⟩ := ferr e he
        refine ⟨hee, ?_, ?_, rfl⟩
        · dsimp only
          rw [hfull, hgc]
        · intro c hc
          rw [hgc] at hc
          rcases List.mem_cons.mp hc with rfl | hc2
          · rw [co_tryModel gen imagen prompt ar res (preferredModel false) (by decide)]
            exact failsOrEmpty_error h1
          · exact hall c hc2
    · rw [generateImage_rung1_ok hm h1]
      refine ⟨?_, by simp, by simp, ?_, ?_⟩
      · exact ⟨["imagen-3.0", "gemini-2.0-flash-exp", "gemini-2.0-flash-thinking-exp",
          "gemini-1.5-flash"], rfl⟩
      · intro r hr
        dsimp only at hr
        cases hr
        dsimp only
        refine ⟨rfl, ?_, tryModel_ok_ne_nil h1, by simp, fun _ => rfl, ?_⟩
        · rw [co_tryModel gen imagen prompt ar res (preferredModel false) (by decide)]
          exact h1
        · intro hff
          cases hff
      · intro e he
        dsimp only at he
        cases he
  case true =>
    have hgc : genCandidates true =
        preferredModel true :: "gemini-2.5-flash-image" :: ["imagen-3.0",
          "gemini-2.0-flash-exp", "gemini-2.0-flash-thinking-exp", "gemini-1.5-flash"] := rfl
    rcases h1 : tryModel gen (preferredModel true) prompt ar res with e1 | l1
    · rcases h2 : tryModel gen "gemini-2.5-flash-image" prompt ar res with e2 | l2
      · rw [generateImage_rung2_err hm h1 h2]
        obtain ⟨fpre, fne, fdrop, fok, ferr⟩ := generateFallbacks_spec gen imagen prompt ar res
        refine ⟨?_, by simp, ?_, ?_, ?_⟩
        · obtain ⟨t, ht⟩ := fpre
          refine ⟨t, ?_⟩
          rw [hgc]
          dsimp only
          rw [List.cons_append, List.cons_append, ht]
        · intro c hc
          dsimp only at hc
          rw [dropLast_cons_ne _ (by simp), dropLast_cons_ne _ fne] at hc
          rcases List.mem_cons.mp hc with rfl | hc2
          · rw [co_tryModel gen imagen prompt ar res (preferredModel true) (by decide)]
            exact failsOrEmpty_error h1
          · rcases List.mem_cons.mp hc2 with rfl | hc3
            · rw [co_tryModel gen imagen prompt ar res "gemini-2.5-flash-image" (by decide)]
              exact failsOrEmpty_error h2
            · exact fdrop c hc3
        · intro r hr
          dsimp only at hr
          obtain ⟨hlast, hco, hne, hfb, hmem⟩ := fok r hr
          refine ⟨?_, hco, hne, ?_, ?_, fun _ => rfl⟩
          · dsimp only
            rw [getLast?_cons_ne _ (by simp), getLast?_cons_ne _ fne]
            exact hlast
          · constructor
            · intro hff
              rw [hfb] at hff
              cases hff
            · intro hpm
              rw [hpm] at hmem
              exact absurd hmem (by decide)
          · intro hff
            rw [hfb] at hff
            cases hff
        · intro e he
          dsimp only at he
          obtain ⟨hee, hfull, hall⟩ := ferr e he
          refine ⟨hee, ?_, ?_, rfl⟩
          · dsimp only
            rw [hfull, hgc]
          · intro c hc
            rw [hgc] at hc
            rcases List.mem_cons.mp hc with rfl | hc2
            · rw [co_tryModel gen imagen prompt ar res (preferredModel true) (by decide)]
              exact failsOrEmpty_error h1
            · rcases List.mem_cons.mp hc2 with rfl | hc3
              · rw [co_tryModel gen imagen prompt ar res "gemini-2.5-flash-image" (by decide)]
                exact failsOrEmpty_error h2
              · exact hall c hc3
      · rw [generateImage_rung2_ok hm h1 h2]
        refine ⟨?_, by simp, ?_, ?_, ?_⟩
        · exact ⟨["imagen-3.0", "gemini-2.0-flash-exp", "gemini-2.0-flash-thinking-exp",
            "gemini-1.5-flash"], rfl⟩
        · intro c hc
          dsimp only at hc
          rw [show ([preferredModel true, "gemini-2.5-flash-image"] : List String).dropLast =
            [preferredModel true] from rfl] at hc
          rw [List.mem_singleton] at hc
          subst hc
          rw [co_tryModel gen imagen prompt ar res (preferredModel true) (by decide)]
          exact failsOrEmpty_error h1
        · intro r hr
          dsimp only at hr
          cases hr
          dsimp only
          refine ⟨by simp, ?_, tryModel_ok_ne_nil h2, by decide, ?_, fun _ => rfl⟩
          · rw [co_tryModel gen imagen prompt ar res "gemini-2.5-flash-image" (by decide)]
            exact h2
          · intro hff
            cases hff
        · intro e he
          dsimp only at he
          cases he
    · rw [generateImage_rung1_ok hm h1]
      refine ⟨?_, by simp, by simp, ?_, ?_⟩
      · exact ⟨["gemini-2.5-flash-image", "imagen-3.0", "gemini-2.0-flash-exp",
          "gemini-2.0-flash-thinking-exp", "gemini-1.5-flash"], rfl⟩
      · intro r hr
        dsimp only at hr
        cases hr
        dsimp only
        refine ⟨rfl, ?_, tryModel_ok_ne_nil h1, by simp, fun _ => rfl, ?_⟩
        · rw [co_tryModel gen imagen prompt ar res (preferredModel true) (by decide)]
          exact h1
        · intro hff
          cases hff
      · intro e he
        dsimp only at he
        cases he




example : (generateImage wQuotaGen wQuotaImagen "p" AspectRatio.square
    ImageResolution.res2K true []).result = .error exhaustedErr := by decide
example : (generateImage wUnkGen wUnkImagen "p" AspectRatio.square
    ImageResolution.res2K true []).result = .error exhaustedErr := by decide
example : candidateOutcome wQuotaGen wQuotaImagen "p" AspectRatio.square
    ImageResolution.res2K "gemini-1.5-flash" = .error quota429 := by decide
example : tryModel wgOK (preferredModel true) "p" AspectRatio.square ImageResolution.res2K
    = .ok ["data:image/png;base64,IMG"] := by decide

/-- Exhaustion lemma: on a cache miss, when every candidate fails or
produces nothing, the call fails with the fixed terminal error. -/
lemma generate_exhausted (gen : ContentRequest → Nat → Except GemError Response)
    (imagen : ImagenRequest → Nat → Except GemError (List String))
    (prompt : String) (ar : AspectRatio) (res : ImageResolution) (pro : Bool)
    (cache : List (String × List String))
    (hm : cache.lookup (cacheKey prompt ar res pro) = none)
    (hall : ∀ c ∈ genCandidates pro,
      failsOrEmpty (candidateOutcome gen imagen prompt ar res c) = true) :
    (generateImage gen imagen prompt ar res pro cache).result = .error exhaustedErr := by
  obtain ⟨hpre, hne, hdrop, hok, herr⟩ := (generate_spec gen imagen prompt ar res pro cache).2 hm
  rcases hres : (generateImage gen imagen prompt ar res pro cache).result with e | r
  · obtain ⟨hee, _, _, _⟩ := herr e hres
    rw [hee]
  · exfalso
    obtain ⟨hlast, hco, hne2, _⟩ := hok r hres
    have hmem : r.modelUsed ∈ (generateImage gen imagen prompt ar res pro cache).attempted := by
      have hx : r.modelUsed ∈
          ((generateImage gen imagen prompt ar res pro cache).attempted).getLast? := by
        rw [hlast]
        exact Option.mem_def.mpr rfl
      obtain ⟨hne3, heq⟩ := List.mem_getLast?_eq_getLast hx
      rw [heq]
      exact List.getLast_mem hne3
    have hfe := hall _ (hpre.subset hmem)
    rw [hco] at hfe
    simp only [failsOrEmpty, List.isEmpty_iff] at hfe
    exact hne2 hfe

/-- C1: on a cache miss the candidates are attempted strictly in the
priority order of `genCandidates` (tier primary first; for the pro tier
the standard model second; then Imagen 3; then the two experimental
models; then the legacy model): the attempted list is an initial segment
of that order, every candidate before the last attempted one failed or
yielded nothing, a success returns exactly the images of the last
attempted candidate — so no later candidate is invoked after the first
non-empty success — and the fallback flag is clear precisely when the
serving candidate is the primary; a cache hit is served with the flag
clear and no candidate invoked at all. -/
theorem claim_C1_generate_waterfall (gen : ContentRequest → Nat → Except GemError Response)
    (imagen : ImagenRequest → Nat → Except GemError (List String))
    (prompt : String) (ar : AspectRatio) (res : ImageResolution) (pro : Bool)
    (cache : List (String × List String))
    (hm : cache.lookup (cacheKey prompt ar res pro) = none) :
    (generateImage gen imagen prompt ar res pro cache).attempted <+: genCandidates pro
    ∧ (∀ c ∈ (generateImage gen imagen prompt ar res pro cache).attempted.dropLast,
        failsOrEmpty (candidateOutcome gen imagen prompt ar res c) = true)
    ∧ (∀ r, (generateImage gen imagen prompt ar res pro cache).result = .ok r →
        (generateImage gen imagen prompt ar res pro cache).attempted.getLast? =
          some r.modelUsed
        ∧ candidateOutcome gen imagen prompt ar res r.modelUsed = .ok r.images
        ∧ r.images ≠ []
        ∧ (r.usedFallback = false ↔ r.modelUsed = preferredModel pro))
    ∧ (∀ imgs (cache2 : List (String × List String)),
        cache2.lookup (cacheKey prompt ar res pro) = some imgs →
        generateImage gen imagen prompt ar res pro cache2 =
          ⟨.ok ⟨imgs, false, "Cache"⟩, cache2, []⟩) := by
  obtain ⟨hpre, hne, hdrop, hok, herr⟩ := (generate_spec gen imagen prompt ar res pro cache).2 hm
  refine ⟨hpre, hdrop, fun r hr => ?_, fun imgs cache2 h => ?_⟩
  · obtain ⟨a, b, c, d, _, _⟩ := hok r hr
    exact ⟨a, b, c, d⟩
  · exact (generate_spec gen imagen prompt ar res pro cache2).1 imgs h

/-- Witness for C1: pro tier, primary fails, standard model serves. -/
theorem claim_C1_generate_waterfall_witness :
    (List.lookup (cacheKey "p" AspectRatio.square ImageResolution.res2K true)
        ([] : List (String × List String)) = none)
    ∧ (generateImage w1gen wFailImagen "p" AspectRatio.square ImageResolution.res2K
        true []).attempted <+: genCandidates true :=
  ⟨by decide,
    (claim_C1_generate_waterfall w1gen wFailImagen "p" AspectRatio.square
      ImageResolution.res2K true [] (by decide)).1⟩

/-- C3: a first call whose primary candidate succeeds returns the
non-degraded result and writes the cache entry; a second identical call —
whatever its oracles do — is served from the cache with the flag clear
and no candidate invoked; the cache is written only on a miss followed by
a primary-candidate success; and an existing entry is never evicted or
overwritten by any call. -/
theorem claim_C3_cache_replay (gen gen2 : ContentRequest → Nat → Except GemError Response)
    (imagen imagen2 : ImagenRequest → Nat → Except GemError (List String))
    (prompt : String) (ar : AspectRatio) (res : ImageResolution) (pro : Bool)
    (cache : List (String × List String)) (imgs : List String)
    (hm : cache.lookup (cacheKey prompt ar res pro) = none)
    (h1 : tryModel gen (preferredModel pro) prompt ar res = .ok imgs) :
    generateImage gen imagen prompt ar res pro cache =
      ⟨.ok ⟨imgs, false, preferredModel pro⟩,
        (cacheKey prompt ar res pro, imgs) :: cache, [preferredModel pro]⟩
    ∧ generateImage gen2 imagen2 prompt ar res pro
        ((cacheKey prompt ar res pro, imgs) :: cache) =
        ⟨.ok ⟨imgs, false, "Cache"⟩, (cacheKey prompt ar res pro, imgs) :: cache, []⟩
    ∧ (∀ (cache2 : List (String × List String)),
        (generateImage gen imagen prompt ar res pro cache2).cache = cache2
        ∨ ∃ imgs2, cache2.lookup (cacheKey prompt ar res pro) = none
            ∧ tryModel gen (preferredModel pro) prompt ar res = .ok imgs2
            ∧ (generateImage gen imagen prompt ar res pro cache2).cache =
                (cacheKey prompt ar res pro, imgs2) :: cache2
            ∧ (generateImage gen imagen prompt ar res pro cache2).result =
                .ok ⟨imgs2, false, preferredModel pro⟩)
    ∧ (∀ (cache3 : List (String × List String)) (k : String) (v : List String),
        cache3.lookup k = some v →
        ((generateImage gen imagen prompt ar res pro cache3).cache).lookup k = some v) := by
  have hwrite : ∀ (cache2 : List (String × List String)),
      (generateImage gen imagen prompt ar res pro cache2).cache = cache2
      ∨ ∃ imgs2, cache2.lookup (cacheKey prompt ar res pro) = none
          ∧ tryModel gen (preferredModel pro) prompt ar res = .ok imgs2
          ∧ (generateImage gen imagen prompt ar res pro cache2).cache =
              (cacheKey prompt ar res pro, imgs2) :: cache2
          ∧ (generateImage gen imagen prompt ar res pro cache2).result =
              .ok ⟨imgs2, false, preferredModel pro⟩ := by
    intro cache2
    rcases hc : cache2.lookup (cacheKey prompt ar res pro) with _ | v
    · rcases hp : tryModel gen (preferredModel pro) prompt ar res with e | l
      · left
        cases pro
        case false =>
          rw [generateImage_std_err hc hp]
        case true =>
          rcases h2 : tryModel gen "gemini-2.5-flash-image" prompt ar res with e2 | l2
          · rw [generateImage_rung2_err hc hp h2]
          · rw [generateImage_rung2_ok hc hp h2]
      · right
        exact ⟨l, rfl, rfl, by rw [generateImage_rung1_ok hc hp],
          by rw [generateImage_rung1_ok hc hp]⟩
    · left
      rw [generateImage_hit hc]
  refine ⟨by rw [generateImage_rung1_ok hm h1], ?_, hwrite, ?_⟩
  · have hhit : ((cacheKey prompt ar res pro, imgs) :: cache).lookup
        (cacheKey prompt ar res pro) = some imgs := by
      simp [List.lookup]
    exact generateImage_hit hhit
  · intro cache3 k v hv
    rcases hwrite cache3 with hsame | ⟨imgs2, hnone, _, hcache, _⟩
    · rw [hsame]
      exact hv
    · rw [hcache]
      have hkne : k ≠ cacheKey prompt ar res pro := by
        intro hkey
        rw [hkey, hnone] at hv
        cases hv
      have hbne : (k == cacheKey prompt ar res pro) = false :=
        beq_eq_false_iff_ne.mpr hkne
      simp only [List.lookup, hbne]
      exact hv

/-- Witness for C3: a primary success at an empty cache, replayed. -/
theorem claim_C3_cache_replay_witness :
    (List.lookup (cacheKey "p" AspectRatio.square ImageResolution.res2K true)
        ([] : List (String × List String)) = none
      ∧ tryModel wgOK (preferredModel true) "p" AspectRatio.square ImageResolution.res2K =
        .ok ["data:image/png;base64,IMG"])
    ∧ generateImage wgOK wFailImagen "p" AspectRatio.square ImageResolution.res2K true [] =
        ⟨.ok ⟨["data:image/png;base64,IMG"], false, preferredModel true⟩,
          [(cacheKey "p" AspectRatio.square ImageResolution.res2K true,
            ["data:image/png;base64,IMG"])], [preferredModel true]⟩ :=
  ⟨⟨by decide, by decide⟩,
    (claim_C3_cache_replay wgOK wgOK wFailImagen wFailImagen "p" AspectRatio.square
      ImageResolution.res2K true [] ["data:image/png;base64,IMG"] (by decide) (by decide)).1⟩

/-- C4: the generate waterfall never returns an empty artifact list (for
any cache whose entries are non-empty); a backend success carrying no
image part is promoted to the `noImageErr` failure inside `tryModel`, so
the waterfall advances past it; and when every candidate fails or yields
nothing the call raises the fixed exhausted error instead of returning. -/
theorem claim_C4_no_empty_result (gen : ContentRequest → Nat → Except GemError Response)
    (imagen : ImagenRequest → Nat → Except GemError (List String))
    (prompt : String) (ar : AspectRatio) (res : ImageResolution) (pro : Bool)
    (cache : List (String × List String)) :
    ((∀ k v, cache.lookup k = some v → v ≠ []) →
      ∀ r, (generateImage gen imagen prompt ar res pro cache).result = .ok r →
        r.images ≠ [])
    ∧ (∀ model resp, gen (buildGenRequest model prompt ar res) 0 = .ok resp →
        extractImages resp = [] → tryModel gen model prompt ar res = .error noImageErr)
    ∧ (cache.lookup (cacheKey prompt ar res pro) = none →
        (∀ c ∈ genCandidates pro,
          failsOrEmpty (candidateOutcome gen imagen prompt ar res c) = true) →
        (generateImage gen imagen prompt ar res pro cache).result = .error exhaustedErr) := by
  refine ⟨?_, ?_, generate_exhausted gen imagen prompt ar res pro cache⟩
  · intro hWF r hr
    rcases hc : cache.lookup (cacheKey prompt ar res pro) with _ | imgs
    · obtain ⟨_, _, _, hok, _⟩ := (generate_spec gen imagen prompt ar res pro cache).2 hc
      exact (hok r hr).2.2.1
    · rw [generateImage_hit hc] at hr
      cases hr
      exact hWF _ _ hc
  · intro model resp h0 hemp
    have hw : withRetry (gen (buildGenRequest model prompt ar res)) 0 5 4000 =
        (.ok resp, []) := by
      rw [withRetry, h0]
    unfold tryModel
    rw [hw]
    dsimp only
    rw [hemp]
    rfl

/-- Witness for C4: every candidate failing yields the exhausted error. -/
theorem claim_C4_no_empty_result_witness :
    (List.lookup (cacheKey "p" AspectRatio.square ImageResolution.res2K true)
        ([] : List (String × List String)) = none
      ∧ (∀ c ∈ genCandidates true,
          failsOrEmpty (candidateOutcome wFailGen wFailImagen "p" AspectRatio.square
            ImageResolution.res2K c) = true))
    ∧ (generateImage wFailGen wFailImagen "p" AspectRatio.square ImageResolution.res2K
        true []).result = .error exhaustedErr :=
  ⟨⟨by decide, by decide⟩,
    (claim_C4_no_empty_result wFailGen wFailImagen "p" AspectRatio.square
      ImageResolution.res2K true []).2.2 (by decide) (by decide)⟩

/-- C9 counterexample: two exhausted runs whose final candidates failed
with differently classified errors (quota versus unknown) raise the same
fixed terminal error value, so the terminal error carries no trace of the
last failure classification: no reading of the error can report quota for
the first run and non-quota for the second. -/
theorem claim_C9_counterexample :
    (generateImage wQuotaGen wQuotaImagen "p" AspectRatio.square
      ImageResolution.res2K true []).result = .error exhaustedErr
    ∧ (generateImage wUnkGen wUnkImagen "p" AspectRatio.square
        ImageResolution.res2K true []).result = .error exhaustedErr
    ∧ candidateOutcome wQuotaGen wQuotaImagen "p" AspectRatio.square
        ImageResolution.res2K "gemini-1.5-flash" = .error quota429
    ∧ candidateOutcome wUnkGen wUnkImagen "p" AspectRatio.square
        ImageResolution.res2K "gemini-1.5-flash" = .error mysteryErr
    ∧ isQuotaErr quota429 = true
    ∧ isQuotaErr mysteryErr = false
    ∧ ¬ ∃ f : GemError → Bool,
        f exhaustedErr = isQuotaErr quota429 ∧ f exhaustedErr = isQuotaErr mysteryErr := by
  refine ⟨by decide, by decide, by decide, by decide, by decide, by decide, ?_⟩
  rintro ⟨f, hf1, hf2⟩
  have hq : isQuotaErr quota429 = true := by decide
  have hmys : isQuotaErr mysteryErr = false := by decide
  rw [hq] at hf1
  rw [hmys] at hf2
  rw [hf1] at hf2
  cases hf2

/-- C9 (amended): when every candidate is exhausted the call raises a
fixed terminal error — the constant `exhaustedErr` message — independent
of the classification of the last candidate failure: any two exhausted
runs produce identical terminal results. -/
theorem claim_C9_fixed_terminal_error
    (gen gen2 : ContentRequest → Nat → Except GemError Response)
    (imagen imagen2 : ImagenRequest → Nat → Except GemError (List String))
    (prompt : String) (ar : AspectRatio) (res : ImageResolution) (pro : Bool)
    (cache : List (String × List String))
    (hm : cache.lookup (cacheKey prompt ar res pro) = none)
    (hall : ∀ c ∈ genCandidates pro,
      failsOrEmpty (candidateOutcome gen imagen prompt ar res c) = true) :
    (generateImage gen imagen prompt ar res pro cache).result = .error exhaustedErr
    ∧ ((∀ c ∈ genCandidates pro,
          failsOrEmpty (candidateOutcome gen2 imagen2 prompt ar res c) = true) →
        (generateImage gen imagen prompt ar res pro cache).result =
          (generateImage gen2 imagen2 prompt ar res pro cache).result) := by
  refine ⟨generate_exhausted gen imagen prompt ar res pro cache hm hall, fun hall2 => ?_⟩
  rw [generate_exhausted gen imagen prompt ar res pro cache hm hall,
    generate_exhausted gen2 imagen2 prompt ar res pro cache hm hall2]

/-- Witness for C9 (amended): the quota-failing and unknown-failing runs
agree on the terminal result. -/
theorem claim_C9_fixed_terminal_error_witness :
    (List.lookup (cacheKey "p" AspectRatio.square ImageResolution.res2K true)
        ([] : List (String × List String)) = none
      ∧ (∀ c ∈ genCandidates true,
          failsOrEmpty (candidateOutcome wQuotaGen wQuotaImagen "p" AspectRatio.square
            ImageResolution.res2K c) = true))
    ∧ (generateImage wQuotaGen wQuotaImagen "p" AspectRatio.square ImageResolution.res2K
        true []).result = .error exhaustedErr :=
  ⟨⟨by decide, by decide⟩,
    (claim_C9_fixed_terminal_error wQuotaGen wUnkGen wQuotaImagen wUnkImagen "p"
      AspectRatio.square ImageResolution.res2K true [] (by decide) (by decide)).1⟩

/-- Unfolding lemma: an edit rung that fails advances the loop. -/
lemma editLoop_cons_err {gen : ContentRequest → Nat → Except GemError Response}
    {imgs : List String} {p : String} {ar : Option AspectRatio}
    {res : Option ImageResolution} {m : String} {e : GemError}
    (h : tryEdit gen imgs p ar res m = .error e) (ms : List String) :
    editLoop gen imgs p ar res (m :: ms) =
      ((editLoop gen imgs p ar res ms).1, m :: (editLoop gen imgs p ar res ms).2) := by
  conv_lhs => rw [editLoop]
  rw [h]

/-- Unfolding lemma: an edit rung whose response has no image part
advances the loop. -/
lemma editLoop_cons_noimg {gen : ContentRequest → Nat → Except GemError Response}
    {imgs : List String} {p : String} {ar : Option AspectRatio}
    {res : Option ImageResolution} {m : String} {resp : Response}
    (h : tryEdit gen imgs p ar res m = .ok resp) (hi : firstInlineImage resp = none)
    (ms : List String) :
    editLoop gen imgs p ar res (m :: ms) =
      ((editLoop gen imgs p ar res ms).1, m :: (editLoop gen imgs p ar res ms).2) := by
  conv_lhs => rw [editLoop]
  rw [h]
  dsimp only
  rw [hi]

/-- Unfolding lemma: an edit rung whose response carries an image returns
it at once, non-synthetic. -/
lemma editLoop_cons_found {gen : ContentRequest → Nat → Except GemError Response}
    {imgs : List String} {p : String} {ar : Option AspectRatio}
    {res : Option ImageResolution} {m : String} {resp : Response} {d : String}
    (h : tryEdit gen imgs p ar res m = .ok resp) (hi : firstInlineImage resp = some d)
    (ms : List String) :
    editLoop gen imgs p ar res (m :: ms) =
      (some ⟨some ("data:image/png;base64," ++ d), false⟩, [m]) := by
  conv_lhs => rw [editLoop]
  rw [h]
  dsimp only
  rw [hi]

/-- The edit loop yields nothing exactly when every candidate fails or is
image-free, in which case every candidate was attempted. -/
lemma editLoop_none_iff (gen : ContentRequest → Nat → Except GemError Response)
    (imgs : List String) (p : String) (ar : Option AspectRatio)
    (res : Option ImageResolution) : ∀ ms : List String,
    ((editLoop gen imgs p ar res ms).1 = none ↔
      ∀ m ∈ ms, editOutcome gen imgs p ar res m = none)
    ∧ ((editLoop gen imgs p ar res ms).1 = none →
      (editLoop gen imgs p ar res ms).2 = ms) := by
  intro ms
  induction ms with
  | nil => simp [editLoop]
  | cons m ms ih =>
    rcases h : tryEdit gen imgs p ar res m with e | resp
    · have ho : editOutcome gen imgs p ar res m = none := by
        unfold editOutcome
        rw [h]
      rw [editLoop_cons_err h]
      constructor
      · dsimp only
        rw [ih.1]
        simp [ho]
      · dsimp only
        intro hn
        rw [ih.2 hn]
    · rcases hi : firstInlineImage resp with _ | d
      · have ho : editOutcome gen imgs p ar res m = none := by
          unfold editOutcome
          rw [h]
          exact hi
        rw [editLoop_cons_noimg h hi]
        constructor
        · dsimp only
          rw [ih.1]
          simp [ho]
        · dsimp only
          intro hn
          rw [ih.2 hn]
      · have ho : editOutcome gen imgs p ar res m = some d := by
          unfold editOutcome
          rw [h]
          exact hi
        rw [editLoop_cons_found h hi]
        constructor
        · dsimp only
          constructor
          · intro hn
            cases hn
          · intro hall
            have := hall m (by simp)
            rw [ho] at this
            cases this
        · intro hn
          cases hn

/-- A successful edit loop serves the first candidate with an image:
every earlier candidate yielded nothing, the serving candidate closes the
attempted list, and the result is non-synthetic. -/
lemma editLoop_some (gen : ContentRequest → Nat → Except GemError Response)
    (imgs : List String) (p : String) (ar : Option AspectRatio)
    (res : Option ImageResolution) : ∀ (ms : List String) (r : EditResult),
    (editLoop gen imgs p ar res ms).1 = some r →
    r.usedSynthetic = false
    ∧ ∃ pre m suf, ms = pre ++ m :: suf
        ∧ (editLoop gen imgs p ar res ms).2 = pre ++ [m]
        ∧ (∀ m2 ∈ pre, editOutcome gen imgs p ar res m2 = none)
        ∧ ∃ d, editOutcome gen imgs p ar res m = some d
            ∧ r.image = some ("data:image/png;base64," ++ d) := by
  intro ms
  induction ms with
  | nil =>
    intro r hr
    simp [editLoop] at hr
  | cons m ms ih =>
    intro r hr
    rcases h : tryEdit gen imgs p ar res m with e | resp
    · have ho : editOutcome gen imgs p ar res m = none := by
        unfold editOutcome
        rw [h]
      rw [editLoop_cons_err h] at hr ⊢
      dsimp only at hr ⊢
      obtain ⟨husyn, pre, mm, suf, hms, htr, hpre, d, hd, him⟩ := ih r hr
      refine ⟨husyn, m :: pre, mm, suf, by simp [hms], by simp [htr], ?_, d, hd, him⟩
      intro m2 hm2
      rcases List.mem_cons.mp hm2 with rfl | hm3
      · exact ho
      · exact hpre m2 hm3
    · rcases hi : firstInlineImage resp with _ | d
      · have ho : editOutcome gen imgs p ar res m = none := by
          unfold editOutcome
          rw [h]
          exact hi
        rw [editLoop_cons_noimg h hi] at hr ⊢
        dsimp only at hr ⊢
        obtain ⟨husyn, pre, mm, suf, hms, htr, hpre, d, hd, him⟩ := ih r hr
        refine ⟨husyn, m :: pre, mm, suf, by simp [hms], by simp [htr], ?_, d, hd, him⟩
        intro m2 hm2
        rcases List.mem_cons.mp hm2 with rfl | hm3
        · exact ho
        · exact hpre m2 hm3
      · have ho : editOutcome gen imgs p ar res m = some d := by
          unfold editOutcome
          rw [h]
          exact hi
        rw [editLoop_cons_found h hi] at hr ⊢
        dsimp only at hr
        cases hr
        exact ⟨rfl, [], m, ms, rfl, rfl, by simp, d, ho, rfl⟩

/-- Unfolding lemma: a successful edit loop short-circuits `editImage`. -/
lemma editImage_found {gen : ContentRequest → Nat → Except GemError Response}
    {imagen : ImagenRequest → Nat → Except GemError (List String)}
    {imgs : List String} {p : String} {ar : Option AspectRatio}
    {res : Option ImageResolution} {r : EditResult} {t : List String}
    (h : editLoop gen imgs p ar res editModels = (some r, t)) :
    editImage gen imagen imgs p ar res = (.ok r, t) := by
  unfold editImage
  rw [h]

/-- Unfolding lemma: an exhausted edit loop falls to the synthetic
pipeline, which serves its image when it produces one. -/
lemma editImage_synth_some {gen : ContentRequest → Nat → Except GemError Response}
    {imagen : ImagenRequest → Nat → Except GemError (List String)}
    {imgs : List String} {p : String} {ar : Option AspectRatio}
    {res : Option ImageResolution} {t : List String} {img : String}
    (h : editLoop gen imgs p ar res editModels = (none, t))
    (hs : (syntheticEditWithImagen gen imagen imgs p (arOrSquare ar)).1 = some img) :
    editImage gen imagen imgs p ar res = (.ok ⟨some img, true⟩, t ++ ["synthetic"]) := by
  unfold editImage
  rw [h]
  dsimp only
  rw [hs]

/-- Unfolding lemma: an exhausted edit loop with a failed synthetic
pipeline raises the terminal edit error. -/
lemma editImage_synth_none {gen : ContentRequest → Nat → Except GemError Response}
    {imagen : ImagenRequest → Nat → Except GemError (List String)}
    {imgs : List String} {p : String} {ar : Option AspectRatio}
    {res : Option ImageResolution} {t : List String}
    (h : editLoop gen imgs p ar res editModels = (none, t))
    (hs : (syntheticEditWithImagen gen imagen imgs p (arOrSquare ar)).1 = none) :
    editImage gen imagen imgs p ar res = (.error editExhaustedErr, t ++ ["synthetic"]) := by
  unfold editImage
  rw [h]
  dsimp only
  rw [hs]

/-- C5 counterexample: the edit result served by the second candidate is
byte-for-byte identical to the one served by the first candidate on its
first attempt, so the returned value carries no degraded flag: no reading
of the result can be false for the primary-served run and true for the
fallback-served run. -/
theorem claim_C5_counterexample :
    (editImage e1gen wFailImagen ["d"] "go" none none).1 =
      .ok ⟨some "data:image/png;base64,xyz", false⟩
    ∧ (editImage e2gen wFailImagen ["d"] "go" none none).1 =
      .ok ⟨some "data:image/png;base64,xyz", false⟩
    ∧ (editImage e1gen wFailImagen ["d"] "go" none none).2 = ["gemini-2.5-flash-image"]
    ∧ (editImage e2gen wFailImagen ["d"] "go" none none).2 =
      ["gemini-2.5-flash-image", "gemini-2.0-flash-exp"]
    ∧ ¬ ∃ degraded : EditResult → Bool,
        (∀ r, (editImage e1gen wFailImagen ["d"] "go" none none).1 = .ok r →
          degraded r = false)
        ∧ (∀ r, (editImage e2gen wFailImagen ["d"] "go" none none).1 = .ok r →
          degraded r = true) := by
  refine ⟨by decide, by decide, by decide, by decide, ?_⟩
  rintro ⟨dg, hA, hB⟩
  have h1 := hA ⟨some "data:image/png;base64,xyz", false⟩ (by decide)
  have h2 := hB ⟨some "data:image/png;base64,xyz", false⟩ (by decide)
  rw [h1] at h2
  cases h2

/-- C5 (amended): the three edit-capable candidates are tried in order;
the synthetic pipeline runs exactly when all three fail or are image-free;
a returned result carries `usedSynthetic = true` exactly when the
synthetic pipeline produced it (there is no degraded flag); and the call
raises the terminal edit-exhausted error precisely when the three
candidates and the synthetic pipeline all fail to produce an image. -/
theorem claim_C5_edit_pipeline (gen : ContentRequest → Nat → Except GemError Response)
    (imagen : ImagenRequest → Nat → Except GemError (List String))
    (imgs : List String) (p : String) (ar : Option AspectRatio)
    (res : Option ImageResolution) :
    ("synthetic" ∈ (editImage gen imagen imgs p ar res).2 ↔
      ∀ m ∈ editModels, editOutcome gen imgs p ar res m = none)
    ∧ (∀ r, (editImage gen imagen imgs p ar res).1 = .ok r →
        (r.usedSynthetic = true ↔
          ∀ m ∈ editModels, editOutcome gen imgs p ar res m = none))
    ∧ (∀ r, (editImage gen imagen imgs p ar res).1 = .ok r → r.usedSynthetic = true →
        (syntheticEditWithImagen gen imagen imgs p (arOrSquare ar)).1 = r.image
        ∧ r.image ≠ none)
    ∧ (∀ r, (editImage gen imagen imgs p ar res).1 = .ok r → r.usedSynthetic = false →
        ∃ pre m suf, editModels = pre ++ m :: suf
          ∧ (editImage gen imagen imgs p ar res).2 = pre ++ [m]
          ∧ (∀ m2 ∈ pre, editOutcome gen imgs p ar res m2 = none)
          ∧ ∃ d, editOutcome gen imgs p ar res m = some d
              ∧ r.image = some ("data:image/png;base64," ++ d))
    ∧ (∀ e, (editImage gen imagen imgs p ar res).1 = .error e →
        e = editExhaustedErr
        ∧ (∀ m ∈ editModels, editOutcome gen imgs p ar res m = none)
        ∧ (syntheticEditWithImagen gen imagen imgs p (arOrSquare ar)).1 = none)
    ∧ ((∀ m ∈ editModels, editOutcome gen imgs p ar res m = none) →
        (syntheticEditWithImagen gen imagen imgs p (arOrSquare ar)).1 = none →
        (editImage gen imagen imgs p ar res).1 = .error editExhaustedErr) := by
  rcases hl : editLoop gen imgs p ar res editModels with ⟨o, t⟩
  rcases o with _ | r0
  · have hnone1 : (editLoop gen imgs p ar res editModels).1 = none := by rw [hl]
    have hall : ∀ m ∈ editModels, editOutcome gen imgs p ar res m = none :=
      ((editLoop_none_iff gen imgs p ar res editModels).1).mp hnone1
    have ht : t = editModels := by
      have h2 := (editLoop_none_iff gen imgs p ar res editModels).2 hnone1
      rw [hl] at h2
      exact h2
    rcases hs : (syntheticEditWithImagen gen imagen imgs p (arOrSquare ar)).1 with _ | img
    · have he := editImage_synth_none hl hs
      rw [he]
      refine ⟨iff_of_true (by simp) hall, ?_, ?_, ?_, ?_, fun _ _ => rfl⟩
      · intro r hr
        cases hr
      · intro r hr
        cases hr
      · intro r hr
        cases hr
      · intro e he2
        cases he2
        exact ⟨rfl, hall, rfl⟩
    · have he := editImage_synth_some hl hs
      rw [he]
      refine ⟨iff_of_true (by simp) hall, ?_, ?_, ?_, ?_, ?_⟩
      · intro r hr
        cases hr
        exact iff_of_true rfl hall
      · intro r hr _
        cases hr
        exact ⟨rfl, by simp⟩
      · intro r hr hfalse
        cases hr
        cases hfalse
      · intro e he2
        cases he2
      · intro _ hs2
        cases hs2
  · have hsome : (editLoop gen imgs p ar res editModels).1 = some r0 := by rw [hl]
    obtain ⟨husyn, pre, m, suf, hms, htr, hpre, d, hd, him⟩ :=
      editLoop_some gen imgs p ar res editModels r0 hsome
    have htr2 : t = pre ++ [m] := by
      rw [hl] at htr
      exact htr
    have he : editImage gen imagen imgs p ar res = (.ok r0, t) := editImage_found hl
    rw [he]
    have hmem_m : m ∈ editModels := by
      rw [hms]
      simp
    have hnotall : ¬ ∀ m2 ∈ editModels, editOutcome gen imgs p ar res m2 = none := by
      intro hall
      have hx := hall m hmem_m
      rw [hd] at hx
      cases hx
    have hsyn_not : "synthetic" ∉ t := by
      rw [htr2]
      intro hmem
      have hin : "synthetic" ∈ editModels := by
        rw [hms]
        rcases List.mem_append.mp hmem with h1 | h2
        · exact List.mem_append_left _ h1
        · simp at h2
          rw [h2]
          simp
      exact absurd hin (by decide)
    refine ⟨iff_of_false hsyn_not hnotall, ?_, ?_, ?_, ?_, ?_⟩
    · intro r hr
      cases hr
      refine ⟨?_, fun hall => absurd hall hnotall⟩
      intro hT
      rw [husyn] at hT
      cases hT
    · intro r hr hT
      cases hr
      rw [husyn] at hT
      cases hT
    · intro r hr _
      cases hr
      exact ⟨pre, m, suf, hms, htr2, hpre, d, hd, him⟩
    · intro e he2
      cases he2
    · intro hall _
      exact absurd hall hnotall

/-- Witness for C5 (amended): every candidate and the synthetic pipeline
failing raises the terminal edit error. -/
theorem claim_C5_edit_pipeline_witness :
    ((∀ m ∈ editModels, editOutcome wFailGen ["d"] "go" none none m = none)
      ∧ (syntheticEditWithImagen wFailGen wFailImagen ["d"] "go"
          (arOrSquare none)).1 = none)
    ∧ (editImage wFailGen wFailImagen ["d"] "go" none none).1 =
        .error editExhaustedErr :=
  ⟨⟨by decide, by decide⟩,
    (claim_C5_edit_pipeline wFailGen wFailImagen ["d"] "go" none none).2.2.2.2.2
      (by decide) (by decide)⟩

/-- Unfolding lemma: the description stage with a first-candidate answer. -/
lemma describeStage_first_ok {gen : ContentRequest → Nat → Except GemError Response}
    {imgs : List String} {p d : String}
    (hd : descAttempt gen imgs p "gemini-2.5-flash" = .ok d) :
    describeStage gen imgs p = (some d, ["gemini-2.5-flash"]) := by
  unfold describeStage
  rw [hd]

/-- Unfolding lemma: the description stage after a first-candidate
failure and a second-candidate answer. -/
lemma describeStage_second_ok {gen : ContentRequest → Nat → Except GemError Response}
    {imgs : List String} {p d : String} {e1 : GemError}
    (h1 : descAttempt gen imgs p "gemini-2.5-flash" = .error e1)
    (hd : descAttempt gen imgs p "gemini-2.0-flash-exp" = .ok d) :
    describeStage gen imgs p = (some d, ["gemini-2.5-flash", "gemini-2.0-flash-exp"]) := by
  unfold describeStage
  rw [h1]
  dsimp only
  rw [hd]

/-- Unfolding lemma: the description stage after two failures and a
third-candidate answer. -/
lemma describeStage_third_ok {gen : ContentRequest → Nat → Except GemError Response}
    {imgs : List String} {p d : String} {e1 e2 : GemError}
    (h1 : descAttempt gen imgs p "gemini-2.5-flash" = .error e1)
    (h2 : descAttempt gen imgs p "gemini-2.0-flash-exp" = .error e2)
    (hd : descAttempt gen imgs p "gemini-1.5-flash" = .ok d) :
    describeStage gen imgs p =
      (some d, ["gemini-2.5-flash", "gemini-2.0-flash-exp", "gemini-1.5-flash"]) := by
  unfold describeStage
  rw [h1]
  dsimp only
  rw [h2]
  dsimp only
  rw [hd]

/-- Unfolding lemma: the description stage when all three vision
candidates fail. -/
lemma describeStage_all_err {gen : ContentRequest → Nat → Except GemError Response}
    {imgs : List String} {p : String} {e1 e2 e3 : GemError}
    (h1 : descAttempt gen imgs p "gemini-2.5-flash" = .error e1)
    (h2 : descAttempt gen imgs p "gemini-2.0-flash-exp" = .error e2)
    (h3 : descAttempt gen imgs p "gemini-1.5-flash" = .error e3) :
    describeStage gen imgs p =
      (none, ["gemini-2.5-flash", "gemini-2.0-flash-exp", "gemini-1.5-flash"]) := by
  unfold describeStage
  rw [h1]
  dsimp only
  rw [h2]
  dsimp only
  rw [h3]

/-- C6: the vision candidates are tried in order and the first answering
one provides the description; if the stage fails on all vision
candidates, or the produced description is empty — from whichever
candidate produced it — the pipeline fails with no synthesis entry in
the trace; otherwise, for a non-empty description from whichever vision
candidate produced it, the synthesis stage runs the generation
candidates in order — Imagen first, the experimental model second — with
the description as the prompt and the supplied aspect ratio as the only
generation parameter, returning the first produced artifact, an empty
synthesis success falling through like a failure.  (The square default
for a missing aspect ratio is applied by the edit entry point through
`arOrSquare`.) -/
theorem claim_C6_synthetic_stages (gen : ContentRequest → Nat → Except GemError Response)
    (imagen : ImagenRequest → Nat → Except GemError (List String))
    (imgs : List String) (p : String) (ar : AspectRatio) :
    (∀ d, descAttempt gen imgs p "gemini-2.5-flash" = .ok d →
      describeStage gen imgs p = (some d, ["gemini-2.5-flash"]))
    ∧ (∀ e1 d, descAttempt gen imgs p "gemini-2.5-flash" = .error e1 →
        descAttempt gen imgs p "gemini-2.0-flash-exp" = .ok d →
        describeStage gen imgs p = (some d, ["gemini-2.5-flash", "gemini-2.0-flash-exp"]))
    ∧ (∀ e1 e2 d, descAttempt gen imgs p "gemini-2.5-flash" = .error e1 →
        descAttempt gen imgs p "gemini-2.0-flash-exp" = .error e2 →
        descAttempt gen imgs p "gemini-1.5-flash" = .ok d →
        describeStage gen imgs p =
          (some d, ["gemini-2.5-flash", "gemini-2.0-flash-exp", "gemini-1.5-flash"]))
    ∧ (∀ e1 e2 e3,
        descAttempt gen imgs p "gemini-2.5-flash" = .error e1 →
        descAttempt gen imgs p "gemini-2.0-flash-exp" = .error e2 →
        descAttempt gen imgs p "gemini-1.5-flash" = .error e3 →
        syntheticEditWithImagen gen imagen imgs p ar =
          (none, ["gemini-2.5-flash", "gemini-2.0-flash-exp", "gemini-1.5-flash"]))
    ∧ (∀ dt, describeStage gen imgs p = (some "", dt) →
        syntheticEditWithImagen gen imagen imgs p ar = (none, dt))
    ∧ (∀ d dt, describeStage gen imgs p = (some d, dt) → d ≠ "" →
        (∀ l i, generateWithImagen imagen d ar = .ok l → l.head? = some i →
          syntheticEditWithImagen gen imagen imgs p ar =
            (some i, dt ++ ["synth:imagen-3.0"]))
        ∧ (∀ l, generateWithImagen imagen d ar = .ok l → l.head? = none →
            (∀ l2 i, generateWithGemini2 gen d ar = .ok l2 → l2.head? = some i →
              syntheticEditWithImagen gen imagen imgs p ar =
                (some i, dt ++ ["synth:imagen-3.0", "synth:gemini-2.0-flash-exp"]))
            ∧ (∀ l2, generateWithGemini2 gen d ar = .ok l2 → l2.head? = none →
              syntheticEditWithImagen gen imagen imgs p ar =
                (none, dt ++ ["synth:imagen-3.0", "synth:gemini-2.0-flash-exp"]))
            ∧ (∀ e3, generateWithGemini2 gen d ar = .error e3 →
              syntheticEditWithImagen gen imagen imgs p ar =
                (none, dt ++ ["synth:imagen-3.0", "synth:gemini-2.0-flash-exp"])))
        ∧ (∀ e2, generateWithImagen imagen d ar = .error e2 →
            (∀ l2 i, generateWithGemini2 gen d ar = .ok l2 → l2.head? = some i →
              syntheticEditWithImagen gen imagen imgs p ar =
                (some i, dt ++ ["synth:imagen-3.0", "synth:gemini-2.0-flash-exp"]))
            ∧ (∀ l2, generateWithGemini2 gen d ar = .ok l2 → l2.head? = none →
              syntheticEditWithImagen gen imagen imgs p ar =
                (none, dt ++ ["synth:imagen-3.0", "synth:gemini-2.0-flash-exp"]))
            ∧ (∀ e3, generateWithGemini2 gen d ar = .error e3 →
              syntheticEditWithImagen gen imagen imgs p ar =
                (none, dt ++ ["synth:imagen-3.0", "synth:gemini-2.0-flash-exp"])))) := by
  refine ⟨?_, ?_, ?_, ?_, ?_, ?_⟩
  · intro d hd
    exact describeStage_first_ok hd
  · intro e1 d h1 hd
    exact describeStage_second_ok h1 hd
  · intro e1 e2 d h1 h2 hd
    exact describeStage_third_ok h1 h2 hd
  · intro e1 e2 e3 h1 h2 h3
    unfold syntheticEditWithImagen
    rw [describeStage_all_err h1 h2 h3]
  · intro dt hds
    unfold syntheticEditWithImagen
    rw [hds]
    dsimp only
    rw [if_pos rfl]
  · intro d dt hds hne
    have hif : ¬ d = "" := hne
    refine ⟨?_, ?_, ?_⟩
    · intro l i himg hhead
      unfold syntheticEditWithImagen
      rw [hds]
      dsimp only
      rw [if_neg hif, himg]
      dsimp only
      rw [hhead]
    · intro l himg hheadnone
      refine ⟨?_, ?_, ?_⟩
      · intro l2 i hg2 hhead2
        unfold syntheticEditWithImagen
        rw [hds]
        dsimp only
        rw [if_neg hif, himg]
        dsimp only
        rw [hheadnone]
        dsimp only
        rw [hg2]
        dsimp only
        rw [hhead2]
      · intro l2 hg2 hhead2
        unfold syntheticEditWithImagen
        rw [hds]
        dsimp only
        rw [if_neg hif, himg]
        dsimp only
        rw [hheadnone]
        dsimp only
        rw [hg2]
        dsimp only
        rw [hhead2]
      · intro e3 hg2
        unfold syntheticEditWithImagen
        rw [hds]
        dsimp only
        rw [if_neg hif, himg]
        dsimp only
        rw [hheadnone]
        dsimp only
        rw [hg2]
    · intro e2 himg
      refine ⟨?_, ?_, ?_⟩
      · intro l2 i hg2 hhead2
        unfold syntheticEditWithImagen
        rw [hds]
        dsimp only
        rw [if_neg hif, himg]
        dsimp only
        rw [hg2]
        dsimp only
        rw [hhead2]
      · intro l2 hg2 hhead2
        unfold syntheticEditWithImagen
        rw [hds]
        dsimp only
        rw [if_neg hif, himg]
        dsimp only
        rw [hg2]
        dsimp only
        rw [hhead2]
      · intro e3 hg2
        unfold syntheticEditWithImagen
        rw [hds]
        dsimp only
        rw [if_neg hif, himg]
        dsimp only
        rw [hg2]

/-- Witness for C6: the description comes from the second vision
candidate (after the first fails) and drives an Imagen synthesis that
returns the first artifact. -/
theorem claim_C6_synthetic_stages_witness :
    (describeStage desc2OKgen ["d"] "go" =
        (some "a red fox", ["gemini-2.5-flash", "gemini-2.0-flash-exp"])
      ∧ ("a red fox" : String) ≠ ""
      ∧ generateWithImagen imOK "a red fox" AspectRatio.square =
          .ok ["data:image/jpeg;base64,AAA"]
      ∧ (["data:image/jpeg;base64,AAA"] : List String).head? =
          some "data:image/jpeg;base64,AAA")
    ∧ syntheticEditWithImagen desc2OKgen imOK ["d"] "go" AspectRatio.square =
        (some "data:image/jpeg;base64,AAA",
          ["gemini-2.5-flash", "gemini-2.0-flash-exp", "synth:imagen-3.0"]) :=
  ⟨⟨by decide, by decide, by decide, by decide⟩,
    ((claim_C6_synthetic_stages desc2OKgen imOK ["d"] "go"
        AspectRatio.square).2.2.2.2.2 "a red fox"
        ["gemini-2.5-flash", "gemini-2.0-flash-exp"] (by decide) (by decide)).1
      ["data:image/jpeg;base64,AAA"] "data:image/jpeg;base64,AAA"
      (by decide) (by decide)⟩

end Aurora
